import Mathlib

/-!
Shallow embedding of the soulbound-signature backend: the document /
recipient / field / signature / audit-log data model (db/schema.ts), the
document lifecycle operations (services/document.ts), the field-signing
routes (routes/signing.ts), the KYC identity oracle adapter
(services/kyc-lookup.ts) and the x402 payment middleware
(middleware/x402.ts).

Conventions of the embedding:
- SQL rows become Lean structures, tables become lists inside a `DB` record;
  row ids generated by the database become ids drawn from a counter in `DB`.
- Timestamps (`new Date()`) are passed in as explicit `Nat` parameters.
- Nullable columns and optional JSON fields are `Option`; the JavaScript
  truthiness test on an optional string (`if (x)`) is the `truthy` function
  (undefined and the empty string are falsy), and `x || y` on optional
  strings is `jsOrStr`.
- PDF byte buffers are modelled as opaque `String` payloads; base64
  encode/decode round-trips are identity on this representation.
- The external PDF renderer (`renderFieldsOnPdf` / `appendConfirmationPage`)
  and the Aptos identity oracle (`getKYCVerifiedNames`) are taken as
  function parameters so that both success and failure behaviours can be
  analysed; the oracle parameter already reflects the degrade-to-empty-list
  error handling inside `getKYCVerifiedNames`.
-/

namespace SoulboundSig

/-- Document status enumeration (`DocumentStatus` in types/index.ts). -/
inductive DocStatus
  | draft
  | pending
  | completed
  | cancelled
deriving DecidableEq, Repr

/-- Recipient role enumeration (`RecipientRole`). -/
inductive RecipientRole
  | signer
  | viewer
  | cc
deriving DecidableEq, Repr

/-- Per-recipient signing status (`SigningStatus`). -/
inductive SigningStatus
  | pending
  | signed
  | rejected
deriving DecidableEq, Repr

/-- Field type enumeration (`FieldType`), eleven constructors. -/
inductive FieldType
  | signature
  | freeSignature
  | initial
  | name
  | email
  | date
  | text
  | number
  | checkbox
  | radio
  | dropdown
deriving DecidableEq, Repr

/-- Row of `signature_packages` (a document). -/
structure Pkg where
  id : String
  title : String
  status : DocStatus
  ownerWalletAddress : String
  paymentTxHash : Option String
  documentData : Option String
  documentHtml : Option String
  completedAt : Option Nat
deriving DecidableEq, Repr

/-- Row of `recipients`. -/
structure Recipient where
  id : String
  packageId : String
  walletAddress : Option String
  email : Option String
  name : String
  role : RecipientRole
  signingOrder : Option Int
  signingStatus : SigningStatus
  signedAt : Option Nat
  ipAddress : Option String
  userAgent : Option String
  token : String
deriving DecidableEq, Repr

/-- Structured `field_meta` JSON; only the attributes the backend reads. -/
structure FieldMeta where
  placeholder : Option String := none
  required : Option Bool := none
  characterLimit : Option Nat := none
  format : Option String := none
  defaultValue : Option String := none
deriving DecidableEq, Repr

/-- Row of `signature_fields`. -/
structure SignatureField where
  id : String
  packageId : String
  recipientId : String
  fieldType : FieldType
  page : Nat
  positionX : Int
  positionY : Int
  width : Int
  height : Int
  value : Option String
  fieldMeta : Option FieldMeta
  inserted : Bool
deriving DecidableEq, Repr

/-- Row of `signatures`. -/
structure Signature where
  id : String
  fieldId : String
  recipientId : String
  signatureImage : Option String
  typedSignature : Option String
  kycVerifiedName : Option String
  kycNftAddress : Option String
  walletSignature : Option String
  walletAddress : Option String
  documentHash : Option String
deriving DecidableEq, Repr

/-- Row of `audit_logs`; the JSONB metadata payload is abstracted to an
optional tag string. -/
structure AuditLog where
  id : String
  packageId : Option String
  eventType : String
  userWallet : Option String
  userEmail : Option String
  ipAddress : Option String
  userAgent : Option String
  metadata : Option String
deriving DecidableEq, Repr

/-- The persistent store: the five relations plus a fresh-id counter that
stands in for database-generated uuids. -/
structure DB where
  packages : List Pkg
  recipients : List Recipient
  fields : List SignatureField
  signatures : List Signature
  auditLogs : List AuditLog
  nextId : Nat
deriving DecidableEq, Repr

/-- The empty store. -/
def emptyDB : DB := { packages := [], recipients := [], fields := [],
                      signatures := [], auditLogs := [], nextId := 0 }

/-- Draw a fresh row id from the counter. -/
def DB.fresh (db : DB) : String × DB :=
  ("row" ++ toString db.nextId, { db with nextId := db.nextId + 1 })

/-- JavaScript truthiness of an optional string: undefined and the empty
string are falsy, every other string is truthy. -/
def truthy : Option String → Bool
  | some s => decide (s ≠ "")
  | none => false

/-- JavaScript `a || b` on optional strings. -/
def jsOrStr (a b : Option String) : Option String :=
  if truthy a then a else b

/-- JavaScript `x || undefined` on an optional string. -/
def jsUndef (o : Option String) : Option String :=
  if truthy o then o else none

/-- JavaScript `x || null` as used by the parameter lists of the INSERT
statements: empty strings and undefined both become NULL. -/
def normEmpty : Option String → Option String
  | some s => if s = "" then none else some s
  | none => none

/-- db/schema.ts `createPackage`: INSERT a package with status draft; the
`completed_at` column is left at its NULL default. -/
def createPackage (db : DB) (id title ownerWalletAddress : String)
    (paymentTxHash : Option String) (documentData documentHtml : Option String) :
    Pkg × DB :=
  let p : Pkg :=
    { id := id, title := title, status := DocStatus.draft,
      ownerWalletAddress := ownerWalletAddress, paymentTxHash := paymentTxHash,
      documentData := documentData, documentHtml := documentHtml,
      completedAt := none }
  (p, { db with packages := db.packages ++ [p] })

/-- db/schema.ts `getPackageById`. -/
def getPackageById (db : DB) (id : String) : Option Pkg :=
  db.packages.find? (fun p => decide (p.id = id))

/-- db/schema.ts `updatePackageStatus`: sets the status and stamps
`completed_at` with the current time exactly when the new status is
completed, NULL otherwise.  Returns the updated row when the id exists. -/
def updatePackageStatus (db : DB) (id : String) (status : DocStatus)
    (now : Nat) : Option Pkg × DB :=
  let packages := db.packages.map (fun p =>
    if p.id = id then
      { p with status := status,
               completedAt := if status = DocStatus.completed then some now else none }
    else p)
  (packages.find? (fun p => decide (p.id = id)), { db with packages := packages })

/-- db/schema.ts `updatePackageDocument`: replaces the stored pdf payload. -/
def updatePackageDocument (db : DB) (id : String) (documentData : String) :
    Option Pkg × DB :=
  let packages := db.packages.map (fun p =>
    if p.id = id then { p with documentData := some documentData } else p)
  (packages.find? (fun p => decide (p.id = id)), { db with packages := packages })

/-- Input shape for recipient creation (`RecipientInput`). -/
structure RecipientInput where
  walletAddress : Option String := none
  email : Option String := none
  name : String
  role : Option RecipientRole := none
  signingOrder : Option Int := none
deriving DecidableEq, Repr

/-- db/schema.ts `createRecipient`: INSERT with role defaulting to signer,
signing status pending, and a generated access token (`uuidv4()` is
modelled by the supplied token).  JavaScript `input.signingOrder || null`
turns an order of 0 into NULL. -/
def createRecipient (db : DB) (id token packageId : String)
    (input : RecipientInput) : Recipient × DB :=
  let r : Recipient :=
    { id := id, packageId := packageId, walletAddress := input.walletAddress,
      email := input.email, name := input.name,
      role := input.role.getD RecipientRole.signer,
      signingOrder := match input.signingOrder with
        | some n => if n = 0 then none else some n
        | none => none,
      signingStatus := SigningStatus.pending, signedAt := none,
      ipAddress := none, userAgent := none, token := token }
  (r, { db with recipients := db.recipients ++ [r] })

/-- db/schema.ts `getRecipientByToken`. -/
def getRecipientByToken (db : DB) (token : String) : Option Recipient :=
  db.recipients.find? (fun r => decide (r.token = token))

/-- db/schema.ts `updateRecipientStatus`: stamps `signed_at` exactly when
the new status is signed, and records the origin ip and user agent. -/
def updateRecipientStatus (db : DB) (id : String) (status : SigningStatus)
    (now : Nat) (ipAddress userAgent : Option String) : Option Recipient × DB :=
  let recipients := db.recipients.map (fun r =>
    if r.id = id then
      { r with signingStatus := status,
               signedAt := if status = SigningStatus.signed then some now else none,
               ipAddress := ipAddress, userAgent := userAgent } else r)
  (recipients.find? (fun r => decide (r.id = id)), { db with recipients := recipients })

/-- db/schema.ts `createField`: INSERT with NULL value and inserted FALSE. -/
def createField (db : DB) (id packageId recipientId : String)
    (fieldType : FieldType) (page : Nat) (positionX positionY width height : Int)
    (fieldMeta : Option FieldMeta) : SignatureField × DB :=
  let f : SignatureField :=
    { id := id, packageId := packageId, recipientId := recipientId,
      fieldType := fieldType, page := page, positionX := positionX,
      positionY := positionY, width := width, height := height,
      value := none, fieldMeta := fieldMeta, inserted := false }
  (f, { db with fields := db.fields ++ [f] })

/-- db/schema.ts `getFieldById`. -/
def getFieldById (db : DB) (id : String) : Option SignatureField :=
  db.fields.find? (fun f => decide (f.id = id))

/-- db/schema.ts `getFieldsByRecipient` (result order abstracted). -/
def getFieldsByRecipient (db : DB) (recipientId : String) : List SignatureField :=
  db.fields.filter (fun f => decide (f.recipientId = recipientId))

/-- db/schema.ts `updateFieldValue`: SET value AND inserted = TRUE. -/
def updateFieldValue (db : DB) (id value : String) : Option SignatureField × DB :=
  let fields := db.fields.map (fun f =>
    if f.id = id then { f with value := some value, inserted := true } else f)
  (fields.find? (fun f => decide (f.id = id)), { db with fields := fields })

/-- db/schema.ts `clearFieldValue`: SET value NULL, inserted FALSE. -/
def clearFieldValue (db : DB) (id : String) : Option SignatureField × DB :=
  let fields := db.fields.map (fun f =>
    if f.id = id then { f with value := none, inserted := false } else f)
  (fields.find? (fun f => decide (f.id = id)), { db with fields := fields })

/-- Data argument of `createSignature` (all components optional). -/
structure SigInput where
  signatureImage : Option String := none
  typedSignature : Option String := none
  kycVerifiedName : Option String := none
  kycNftAddress : Option String := none
  walletSignature : Option String := none
  walletAddress : Option String := none
  documentHash : Option String := none
deriving DecidableEq, Repr

/-- db/schema.ts `createSignature`: INSERT with each payload component put
through `x || null`, so an empty string component is stored as NULL. -/
def createSignature (db : DB) (fieldId recipientId : String) (d : SigInput) :
    Signature × DB :=
  let sid := db.fresh.1
  let db1 := db.fresh.2
  let s : Signature :=
    { id := sid, fieldId := fieldId, recipientId := recipientId,
      signatureImage := normEmpty d.signatureImage,
      typedSignature := normEmpty d.typedSignature,
      kycVerifiedName := normEmpty d.kycVerifiedName,
      kycNftAddress := normEmpty d.kycNftAddress,
      walletSignature := normEmpty d.walletSignature,
      walletAddress := normEmpty d.walletAddress,
      documentHash := normEmpty d.documentHash }
  (s, { db1 with signatures := db1.signatures ++ [s] })

/-- db/schema.ts `getSignatureByField`. -/
def getSignatureByField (db : DB) (fieldId : String) : Option Signature :=
  db.signatures.find? (fun s => decide (s.fieldId = fieldId))

/-- db/schema.ts `deleteSignatureByField`. -/
def deleteSignatureByField (db : DB) (fieldId : String) : DB :=
  { db with signatures := db.signatures.filter (fun s => decide (s.fieldId ≠ fieldId)) }

/-- Optional columns of an audit log row. -/
structure AuditData where
  userWallet : Option String := none
  userEmail : Option String := none
  ipAddress : Option String := none
  userAgent : Option String := none
  metadata : Option String := none
deriving DecidableEq, Repr

/-- db/schema.ts `createAuditLog`: appends a row; metadata defaults to the
empty JSON object. -/
def createAuditLog (db : DB) (packageId : Option String) (eventType : String)
    (d : AuditData) : AuditLog × DB :=
  let aid := db.fresh.1
  let db1 := db.fresh.2
  let a : AuditLog :=
    { id := aid, packageId := packageId, eventType := eventType,
      userWallet := d.userWallet, userEmail := d.userEmail,
      ipAddress := d.ipAddress, userAgent := d.userAgent,
      metadata := some (d.metadata.getD "{}") }
  (a, { db1 with auditLogs := db1.auditLogs ++ [a] })

/-- db/schema.ts `checkAllRecipientsSigned`: counts the role=signer
recipients of the package and compares with how many of them have signing
status signed; true only when the signer count is positive and equal to the
signed count. -/
def checkAllRecipientsSigned (db : DB) (packageId : String) : Bool :=
  let signers := db.recipients.filter (fun r =>
    decide (r.packageId = packageId) && decide (r.role = RecipientRole.signer))
  let total := signers.length
  let signedCount :=
    (signers.filter (fun r => decide (r.signingStatus = SigningStatus.signed))).length
  decide (0 < total) && decide (total = signedCount)

/-- db/schema.ts `deletePackage`. -/
def deletePackage (db : DB) (packageId : String) : DB :=
  { db with packages := db.packages.filter (fun p => decide (p.id ≠ packageId)) }

/-- db/schema.ts `deleteRecipientsByPackage`. -/
def deleteRecipientsByPackage (db : DB) (packageId : String) : DB :=
  { db with recipients := db.recipients.filter (fun r => decide (r.packageId ≠ packageId)) }

/-- db/schema.ts `deleteFieldsByPackage`. -/
def deleteFieldsByPackage (db : DB) (packageId : String) : DB :=
  { db with fields := db.fields.filter (fun f => decide (f.packageId ≠ packageId)) }

/-- db/schema.ts `deleteSignaturesByPackage`: deletes the signatures whose
field belongs to the package (subquery join on signature_fields). -/
def deleteSignaturesByPackage (db : DB) (packageId : String) : DB :=
  { db with signatures := db.signatures.filter (fun s =>
      decide (¬ ∃ f ∈ db.fields, f.packageId = packageId ∧ s.fieldId = f.id)) }

/-- db/schema.ts `deleteAuditLogsByPackage`: DELETE, not set-null. -/
def deleteAuditLogsByPackage (db : DB) (packageId : String) : DB :=
  { db with auditLogs := db.auditLogs.filter (fun a => decide (a.packageId ≠ some packageId)) }

/-- db/schema.ts `getPackageWithRecipients`: the package together with its
recipients and fields. -/
def getPackageWithRecipients (db : DB) (packageId : String) :
    Option (Pkg × List Recipient × List SignatureField) :=
  match getPackageById db packageId with
  | none => none
  | some pkg =>
    some (pkg,
      db.recipients.filter (fun r => decide (r.packageId = packageId)),
      db.fields.filter (fun f => decide (f.packageId = packageId)))

/-!  Document lifecycle service (services/document.ts).  -/

/-- Body of the recipient-creation loop of `createDocument`: one recipient
row, with its row id and access token drawn from the id supply. -/
def createRecipStep (packageId : String) (d : DB) (input : RecipientInput) : DB :=
  let rid := d.fresh.1
  let d1 := d.fresh.2
  let tok := d1.fresh.1
  let d2 := d1.fresh.2
  (createRecipient d2 rid tok packageId input).2

/-- services/document.ts `createDocument`: creates the package in draft,
creates each recipient, and writes the `document_created` audit event.
The signing-link record returned to the caller and the HTML `<sig-field>`
parsing step are omitted: the former is pure string formatting and the
latter only inserts field rows, neither of which any lifecycle claim
observes. -/
def createDocument (db : DB) (title payer paymentTxHash : String)
    (documentData documentHtml : Option String)
    (recips : List RecipientInput) : String × DB :=
  let pid := db.fresh.1
  let db0 := db.fresh.2
  let pkg := (createPackage db0 pid title payer (some paymentTxHash)
      documentData documentHtml).1
  let db1 := (createPackage db0 pid title payer (some paymentTxHash)
      documentData documentHtml).2
  let db2 := recips.foldl (createRecipStep pkg.id) db1
  let db3 := (createAuditLog db2 (some pkg.id) "document_created"
      { userWallet := some payer, metadata := some "title,format,recipientCount,paymentTxHash" }).2
  (pkg.id, db3)

/-- services/document.ts `distributeDocument`: status update to pending,
then the `document_distributed` audit event when the package exists. -/
def distributeDocument (db : DB) (documentId : String) : Option Pkg × DB :=
  let db1 := (updatePackageStatus db documentId DocStatus.pending 0).2
  match (updatePackageStatus db documentId DocStatus.pending 0).1 with
  | none => (none, db1)
  | some p =>
    let db2 := (createAuditLog db1 (some documentId) "document_distributed"
        { userWallet := some p.ownerWalletAddress, metadata := some "distributedAt" }).2
    (some p, db2)

/-- services/document.ts `cancelDocument`: status update to cancelled, then
the `document_cancelled` audit event when the package exists. -/
def cancelDocument (db : DB) (documentId : String) : Option Pkg × DB :=
  let db1 := (updatePackageStatus db documentId DocStatus.cancelled 0).2
  match (updatePackageStatus db documentId DocStatus.cancelled 0).1 with
  | none => (none, db1)
  | some p =>
    let db2 := (createAuditLog db1 (some documentId) "document_cancelled"
        { userWallet := some p.ownerWalletAddress, metadata := some "cancelledAt" }).2
    (some p, db2)

/-- services/document.ts `generateFinalDocument`: renders the field values
onto the pdf and appends the confirmation page, then saves the final pdf
back onto the package.  Every rendering failure is caught inside this
function (the source catch block logs and returns), so a failure leaves the
store unchanged and never propagates to the caller.  Missing package or
missing pdf payload also return without change. -/
def generateFinalDocument
    (renderFieldsOnPdf : String → String → Except String String)
    (appendConfirmationPage : String → String → String → Except String String)
    (documentId : String) (db : DB) : DB :=
  match getPackageById db documentId with
  | none => db
  | some doc =>
    match doc.documentData with
    | none => db
    | some pdf =>
      match renderFieldsOnPdf pdf documentId with
      | Except.error _ => db
      | Except.ok rendered =>
        match appendConfirmationPage rendered documentId doc.title with
        | Except.error _ => db
        | Except.ok finalPdf => (updatePackageDocument db documentId finalPdf).2

/-- services/document.ts `checkAndCompleteDocument`: when every role=signer
recipient of the document has signed, run the finalization pipeline, set
the status to completed and write the `document_completed` audit event,
returning true; otherwise return false without touching the store. -/
def checkAndCompleteDocument
    (renderFieldsOnPdf : String → String → Except String String)
    (appendConfirmationPage : String → String → String → Except String String)
    (documentId : String) (now : Nat) (db : DB) : Bool × DB :=
  if checkAllRecipientsSigned db documentId then
    let db1 := generateFinalDocument renderFieldsOnPdf appendConfirmationPage documentId db
    let db2 := (updatePackageStatus db1 documentId DocStatus.completed now).2
    let db3 := (createAuditLog db2 (some documentId) "document_completed"
        { metadata := some "completedAt" }).2
    (true, db3)
  else
    (false, db)

/-- services/document.ts `deleteDocument`: ordered cascade, children before
parents: signatures (via the field join), fields, recipients, audit logs,
then the package row itself. -/
def deleteDocument (db : DB) (documentId : String) : DB :=
  deletePackage
    (deleteAuditLogsByPackage
      (deleteRecipientsByPackage
        (deleteFieldsByPackage
          (deleteSignaturesByPackage db documentId) documentId) documentId) documentId)
    documentId

/-!  Identity oracle adapter (services/kyc-lookup.ts).  The blockchain
lookup `getKYCVerifiedNames` is the `oracle` parameter below; the source
already degrades every oracle error to an empty list, so the parameter is a
total function into lists.  -/

/-- A verified identity claim (`KYCVerifiedIdentity`). -/
structure KYCVerifiedIdentity where
  nftAddress : String
  fullName : String
  country : Option String
  verificationDate : Nat
deriving DecidableEq, Repr

/-- Result record of `verifyKYCName`. -/
structure KYCVerification where
  verified : Bool
  nftAddress : Option String
  fullName : Option String
  error : Option String
deriving DecidableEq, Repr

/-- services/kyc-lookup.ts `verifyKYCName`: strict re-validation of a
claimed name against the approved claims of a wallet.  With a credential
reference given, a match must be the same credential AND a case-insensitive
name match; without one, any approved claim with a case-insensitive name
match suffices.  (The literal text of the last error message lists the
available names; the quotation marks of the source literal are dropped.) -/
def verifyKYCName (oracle : String → List KYCVerifiedIdentity)
    (walletAddress name : String) (nftAddress : Option String) :
    KYCVerification :=
  let verifiedNames := oracle walletAddress
  if verifiedNames.isEmpty then
    { verified := false, nftAddress := none, fullName := none,
      error := some "No KYC NFTs found for this wallet" }
  else if truthy nftAddress then
    match verifiedNames.find? (fun v =>
        decide (v.nftAddress = nftAddress.getD "") &&
        decide (v.fullName.toLower = name.toLower)) with
    | some m =>
      { verified := true, nftAddress := some m.nftAddress,
        fullName := some m.fullName, error := none }
    | none =>
      { verified := false, nftAddress := none, fullName := none,
        error := some "Name does not match the specified KYC NFT" }
  else
    match verifiedNames.find? (fun v => decide (v.fullName.toLower = name.toLower)) with
    | some m =>
      { verified := true, nftAddress := some m.nftAddress,
        fullName := some m.fullName, error := none }
    | none =>
      { verified := false, nftAddress := none, fullName := none,
        error := some ("Name " ++ name ++ " not found in wallet KYC NFTs. Available names: "
          ++ String.intercalate ", " (verifiedNames.map (fun v => v.fullName))) }

/-!  Field signing routes (routes/signing.ts).  -/

/-- Request body of POST /sign/:token/field/:fieldId (`SignFieldRequest`). -/
structure SignFieldRequest where
  signatureImage : Option String := none
  typedSignature : Option String := none
  kycNftAddress : Option String := none
  verifiedName : Option String := none
  walletSignature : Option String := none
  walletAddress : Option String := none
  documentHash : Option String := none
  value : Option String := none
deriving DecidableEq, Repr

/-- routes/signing.ts `isSignatureField`. -/
def isSignatureField (t : FieldType) : Bool :=
  match t with
  | FieldType.signature => true
  | FieldType.freeSignature => true
  | FieldType.initial => true
  | _ => false

/-- routes/signing.ts `isRequiredField`: signature-class fields are always
required; other fields only when their meta says required === true. -/
def isRequiredField (f : SignatureField) : Bool :=
  if isSignatureField f.fieldType then true
  else match f.fieldMeta with
    | some m => m.required.getD false
    | none => false

/-- The wallet address used for KYC verification in the sign route:
`recipient.wallet_address || body.walletAddress || an empty string`. -/
def effectiveWallet (recipient : Recipient) (body : SignFieldRequest) : String :=
  (jsOrStr recipient.walletAddress body.walletAddress).getD ""

/-- Response of the sign-field route, by HTTP outcome. -/
inductive SignResult
  | invalidToken
  | fieldNotFound
  | forbidden
  | alreadySigned
  | kycVerificationFailed (reason : Option String)
  | signaturePayloadInvalid (message : String)
  | valueRequired
  | signedOk
deriving DecidableEq, Repr

/-- routes/signing.ts POST /:token/field/:fieldId: resolve the recipient by
token, the field by id, check ownership, refuse a second signature, then
dispatch on the field type and the shape of the payload, update the field
value marker, and append the `field_signed` audit event on success. -/
def signFieldHandler (oracle : String → List KYCVerifiedIdentity)
    (token fieldId : String) (body : SignFieldRequest)
    (ip ua : Option String) (db : DB) : SignResult × DB :=
  match getRecipientByToken db token with
  | none => (SignResult.invalidToken, db)
  | some recipient =>
    match getFieldById db fieldId with
    | none => (SignResult.fieldNotFound, db)
    | some field =>
      if field.recipientId ≠ recipient.id then (SignResult.forbidden, db)
      else match getSignatureByField db fieldId with
      | some _ => (SignResult.alreadySigned, db)
      | none =>
        let finish : DB → SignResult × DB := fun dbx =>
          let dbf := (createAuditLog dbx (some recipient.packageId) "field_signed"
            { userWallet := recipient.walletAddress, userEmail := recipient.email,
              ipAddress := ip, userAgent := ua,
              metadata := some ("fieldId=" ++ fieldId) }).2
          (SignResult.signedOk, dbf)
        if isSignatureField field.fieldType then
          if truthy body.kycNftAddress && truthy body.verifiedName then
            let verification := verifyKYCName oracle (effectiveWallet recipient body)
                (body.verifiedName.getD "") body.kycNftAddress
            if verification.verified then
              let db1 := (createSignature db fieldId recipient.id
                { kycVerifiedName := body.verifiedName,
                  kycNftAddress := body.kycNftAddress,
                  walletSignature := jsUndef body.walletSignature,
                  walletAddress := jsUndef body.walletAddress,
                  documentHash := jsUndef body.documentHash }).2
              let db2 := (updateFieldValue db1 fieldId
                ("[KYC: " ++ body.verifiedName.getD "" ++ "]")).2
              finish db2
            else (SignResult.kycVerificationFailed verification.error, db)
          else if truthy body.walletSignature && truthy body.walletAddress &&
              truthy body.documentHash then
            let db1 := (createSignature db fieldId recipient.id
              { walletSignature := body.walletSignature,
                walletAddress := body.walletAddress,
                documentHash := body.documentHash }).2
            let addr := body.walletAddress.getD ""
            let shortAddr := addr.take 6 ++ "..." ++ addr.drop (addr.length - 4)
            let db2 := (updateFieldValue db1 fieldId ("[Wallet: " ++ shortAddr ++ "]")).2
            finish db2
          else if truthy body.typedSignature then
            let db1 := (createSignature db fieldId recipient.id
              { typedSignature := body.typedSignature }).2
            let db2 := (updateFieldValue db1 fieldId (body.typedSignature.getD "")).2
            finish db2
          else if truthy body.signatureImage then
            let db1 := (createSignature db fieldId recipient.id
              { signatureImage := body.signatureImage }).2
            let db2 := (updateFieldValue db1 fieldId "[signature image]").2
            finish db2
          else
            (SignResult.signaturePayloadInvalid
              "Signature field requires walletSignature, signatureImage, typedSignature, or kycNftAddress+verifiedName", db)
        else
          match body.value with
          | none => (SignResult.valueRequired, db)
          | some v =>
            let db1 := (updateFieldValue db fieldId v).2
            let db2 := (createSignature db1 fieldId recipient.id
              { typedSignature := some v }).2
            finish db2

/-- Response of the unsign route. -/
inductive UnsignResult
  | invalidToken
  | cannotUnsignCompleted
  | fieldNotFound
  | forbidden
  | unsignedOk
deriving DecidableEq, Repr

/-- routes/signing.ts DELETE /:token/field/:fieldId: the completion check
on the recipient comes before the field is even looked up; on success the
signature row is deleted, the field value cleared, and an audit event
appended. -/
def unsignFieldHandler (token fieldId : String) (db : DB) : UnsignResult × DB :=
  match getRecipientByToken db token with
  | none => (UnsignResult.invalidToken, db)
  | some recipient =>
    if recipient.signingStatus = SigningStatus.signed then
      (UnsignResult.cannotUnsignCompleted, db)
    else match getFieldById db fieldId with
    | none => (UnsignResult.fieldNotFound, db)
    | some field =>
      if field.recipientId ≠ recipient.id then (UnsignResult.forbidden, db)
      else
        let db1 := deleteSignatureByField db fieldId
        let db2 := (clearFieldValue db1 fieldId).2
        let db3 := (createAuditLog db2 (some recipient.packageId) "field_signed"
          { userWallet := recipient.walletAddress, userEmail := recipient.email,
            metadata := some ("fieldId=" ++ fieldId ++ ",action=unsigned") }).2
        (UnsignResult.unsignedOk, db3)

/-- Response of GET /sign/:token, by HTTP outcome; the success payload is
the recipient fields paired with their current signature rows. -/
inductive SessionResult
  | invalidToken
  | documentNotFound
  | docCancelled
  | docCompleted
  | session (fields : List (SignatureField × Option Signature))
deriving DecidableEq, Repr

/-- routes/signing.ts GET /:token: resolve the recipient, load the
document, refuse cancelled and completed documents, then return the
recipient fields with their signatures (and log a `document_viewed` audit
event).  The KYC name lookup and the aggregate counters of the JSON reply
are derivable from the returned field list and are not modelled
separately. -/
def getSigningSession (token : String) (walletAddress : Option String)
    (ip ua : Option String) (db : DB) : SessionResult × DB :=
  match getRecipientByToken db token with
  | none => (SessionResult.invalidToken, db)
  | some recipient =>
    match getPackageWithRecipients db recipient.packageId with
    | none => (SessionResult.documentNotFound, db)
    | some (pkg, _, fields) =>
      if pkg.status = DocStatus.cancelled then (SessionResult.docCancelled, db)
      else if pkg.status = DocStatus.completed then (SessionResult.docCompleted, db)
      else
        let recipientFields := fields.filter (fun f => decide (f.recipientId = recipient.id))
        let fieldsWithSignatures := recipientFields.map (fun f =>
          (f, getSignatureByField db f.id))
        let db1 := (createAuditLog db (some recipient.packageId) "document_viewed"
          { userWallet := walletAddress, userEmail := recipient.email,
            ipAddress := ip, userAgent := ua }).2
        (SessionResult.session fieldsWithSignatures, db1)

/-- routes/signing.ts POST /:token/complete: refuse while a required field
of the recipient is unsigned (listing the unsigned fields), otherwise mark
the recipient signed, log `signing_completed`, and run the document
completion check, returning whether the whole document completed. -/
inductive CompleteResult
  | invalidToken
  | unsignedRequired (fields : List String)
  | completedOk (documentCompleted : Bool)
deriving DecidableEq, Repr

/-- routes/signing.ts POST /:token/complete (see `CompleteResult`). -/
def completeSigningHandler
    (renderFieldsOnPdf : String → String → Except String String)
    (appendConfirmationPage : String → String → String → Except String String)
    (token : String) (now : Nat) (ip ua : Option String) (db : DB) :
    CompleteResult × DB :=
  match getRecipientByToken db token with
  | none => (CompleteResult.invalidToken, db)
  | some recipient =>
    let fields := getFieldsByRecipient db recipient.id
    let unsignedRequired := fields.filter (fun f =>
      isRequiredField f && (getSignatureByField db f.id).isNone)
    if unsignedRequired.isEmpty then
      let db1 := (updateRecipientStatus db recipient.id SigningStatus.signed now ip ua).2
      let db2 := (createAuditLog db1 (some recipient.packageId) "signing_completed"
        { userWallet := recipient.walletAddress, userEmail := recipient.email,
          ipAddress := ip, userAgent := ua, metadata := some "recipientName,signedAt" }).2
      let res := checkAndCompleteDocument renderFieldsOnPdf
          appendConfirmationPage recipient.packageId now db2
      (CompleteResult.completedOk res.1, res.2)
    else
      (CompleteResult.unsignedRequired (unsignedRequired.map (fun f => f.id)), db)

/-!  x402 payment middleware (middleware/x402.ts).  The facilitator is an
external collaborator: its verify and settle endpoints are function
parameters whose outcome type distinguishes a JSON reply, an unparsable
reply body, and a network failure, so that the catch blocks of
`verifyPayment` and `settlePayment` can be analysed.  -/

/-- The x402 slice of the global config object. -/
structure X402Config where
  network : String
  priceAtomic : String
  usdcAssetAddress : String
  paymentRecipientAddress : String
  signaturePriceUsdc : String
  facilitatorUrl : String
deriving DecidableEq, Repr

/-- middleware/x402.ts `PaymentRequirements`. -/
structure PaymentRequirements where
  scheme : String
  network : String
  amount : String
  asset : String
  payTo : String
  maxTimeoutSeconds : Nat
  sponsored : Bool
deriving DecidableEq, Repr

/-- middleware/x402.ts `buildPaymentRequirements`. -/
def buildPaymentRequirements (cfg : X402Config) : PaymentRequirements :=
  { scheme := "exact", network := cfg.network, amount := cfg.priceAtomic,
    asset := cfg.usdcAssetAddress, payTo := cfg.paymentRecipientAddress,
    maxTimeoutSeconds := 300, sponsored := true }

/-- The machine-readable resource description of the 402 reply. -/
structure ResourceInfo where
  url : String
  description : String
  mimeType : String
deriving DecidableEq, Repr

/-- middleware/x402.ts `buildPaymentRequired`: the challenge body (the
base64 encoding into the PAYMENT-REQUIRED header is a representation
detail; the carried structure is modelled directly). -/
structure PaymentRequired where
  x402Version : Nat
  error : String
  resource : ResourceInfo
  accepts : List PaymentRequirements
deriving DecidableEq, Repr

/-- middleware/x402.ts `buildPaymentRequired` (see `PaymentRequired`). -/
def buildPaymentRequired (cfg : X402Config) (requestUrl : String) :
    PaymentRequired :=
  { x402Version := 2,
    error := "PAYMENT-SIGNATURE header is required",
    resource :=
      { url := requestUrl,
        description := "Soulbound Signature Service - " ++ cfg.signaturePriceUsdc ++ " USDC",
        mimeType := "application/json" },
    accepts := [buildPaymentRequirements cfg] }

/-- The decoded payment proof; its inner structure is opaque to the
middleware logic being verified. -/
structure PaymentPayload where
  raw : String
deriving DecidableEq, Repr

/-- Outcome of one HTTP call to the facilitator verify endpoint. -/
inductive FacVerifyOutcome
  | reply (isValid : Bool) (payer : Option String) (invalidReason : Option String)
  | badJson (text : String)
  | netFail
deriving DecidableEq, Repr

/-- Result record of `verifyPayment`. -/
structure VerifyResult where
  isValid : Bool
  payer : Option String
  invalidReason : Option String
deriving DecidableEq, Repr

/-- middleware/x402.ts `verifyPayment`: an unparsable reply body becomes an
invalid result with the text quoted, and a network failure is caught and
becomes an invalid result with reason "Verification request failed". -/
def verifyPayment
    (facVerify : PaymentPayload → PaymentRequirements → FacVerifyOutcome)
    (p : PaymentPayload) (reqs : PaymentRequirements) : VerifyResult :=
  match facVerify p reqs with
  | FacVerifyOutcome.reply v payer reason =>
    { isValid := v, payer := payer, invalidReason := reason }
  | FacVerifyOutcome.badJson t =>
    { isValid := false, payer := none, invalidReason := some ("Invalid response: " ++ t) }
  | FacVerifyOutcome.netFail =>
    { isValid := false, payer := none, invalidReason := some "Verification request failed" }

/-- Outcome of one HTTP call to the facilitator settle endpoint; a reply
whose body fails to parse as JSON throws inside the same try block as the
network call, so both are `netFail` here. -/
inductive FacSettleOutcome
  | reply (success : Bool) (transaction : Option String) (payer : Option String)
      (errorReason : Option String)
  | netFail
deriving DecidableEq, Repr

/-- Result record of `settlePayment`. -/
structure SettleResult where
  success : Bool
  transaction : Option String
  payer : Option String
  errorReason : Option String
deriving DecidableEq, Repr

/-- middleware/x402.ts `settlePayment`: a network failure (or unparsable
reply) is caught and becomes a failed result with reason "Settlement
request failed". -/
def settlePayment
    (facSettle : PaymentPayload → PaymentRequirements → FacSettleOutcome)
    (p : PaymentPayload) (reqs : PaymentRequirements) : SettleResult :=
  match facSettle p reqs with
  | FacSettleOutcome.reply s tx payer reason =>
    { success := s, transaction := tx, payer := payer, errorReason := reason }
  | FacSettleOutcome.netFail =>
    { success := false, transaction := none, payer := none,
      errorReason := some "Settlement request failed" }

/-- The payment info attached to the request for the creation handler. -/
structure PaymentInfo where
  transactionHash : Option String
  payer : Option String
  amount : String
  network : String
deriving DecidableEq, Repr

/-- Observable outcome of the payment middleware, by HTTP status. -/
inductive MiddlewareResult
  | paymentRequired (body : PaymentRequired)
  | verifyFailed (reason : Option String)
  | settleFailed (reason : Option String)
  | proceed (info : PaymentInfo)
  | serverError
deriving DecidableEq, Repr

/-- middleware/x402.ts `x402PaymentMiddleware`: without a PAYMENT-SIGNATURE
header reply 402 carrying the encoded challenge; with one, decode it (an
undecodable header throws to the outer catch, hence 500), verify with the
facilitator, reply 402 with the reason when invalid, settle, reply 402 with
the reason when settlement fails, and otherwise attach the payment info and
continue to the creation handler. -/
def x402PaymentMiddleware (cfg : X402Config)
    (decodeHeader : String → Option PaymentPayload)
    (facVerify : PaymentPayload → PaymentRequirements → FacVerifyOutcome)
    (facSettle : PaymentPayload → PaymentRequirements → FacSettleOutcome)
    (requestUrl : String) (paymentSignature : Option String) :
    MiddlewareResult :=
  match paymentSignature with
  | none => MiddlewareResult.paymentRequired (buildPaymentRequired cfg requestUrl)
  | some header =>
    match decodeHeader header with
    | none => MiddlewareResult.serverError
    | some payload =>
      let reqs := buildPaymentRequirements cfg
      let verifyResult := verifyPayment facVerify payload reqs
      if verifyResult.isValid then
        let settleResult := settlePayment facSettle payload reqs
        if settleResult.success then
          MiddlewareResult.proceed
            { transactionHash := settleResult.transaction,
              payer := jsOrStr verifyResult.payer settleResult.payer,
              amount := reqs.amount, network := reqs.network }
        else MiddlewareResult.settleFailed settleResult.errorReason
      else MiddlewareResult.verifyFailed verifyResult.invalidReason

/-!  Lifecycle operation alphabet for the document state machine
invariant.  Each constructor applies the corresponding service operation
(services/document.ts); `checkComplete` carries the renderer functions and
the completion timestamp.  -/

/-- One lifecycle operation of the document state machine. -/
inductive LifecycleOp where
  | createDoc (title payer paymentTxHash : String)
      (documentData documentHtml : Option String) (recips : List RecipientInput)
  | distribute (documentId : String)
  | cancel (documentId : String)
  | checkComplete (documentId : String) (now : Nat)
      (renderFieldsOnPdf : String → String → Except String String)
      (appendConfirmationPage : String → String → String → Except String String)

/-- Apply one lifecycle operation to the store. -/
def applyOp (op : LifecycleOp) (db : DB) : DB :=
  match op with
  | LifecycleOp.createDoc title payer tx docData docHtml recips =>
    (createDocument db title payer tx docData docHtml recips).2
  | LifecycleOp.distribute documentId => (distributeDocument db documentId).2
  | LifecycleOp.cancel documentId => (cancelDocument db documentId).2
  | LifecycleOp.checkComplete documentId now render append =>
    (checkAndCompleteDocument render append documentId now db).2

/-- Apply a sequence of lifecycle operations, first one first. -/
def applyOps (ops : List LifecycleOp) (db : DB) : DB :=
  ops.foldl (fun d op => applyOp op d) db

/-- The completion-timestamp invariant of the data model: a package is in
status completed exactly when its completion timestamp is set. -/
def completedInv (db : DB) : Prop :=
  ∀ p ∈ db.packages, p.status = DocStatus.completed ↔ p.completedAt ≠ none

instance (db : DB) : Decidable (completedInv db) := by
  unfold completedInv; infer_instance

/-!  Specification-side definition for the signing-mode dispatch claim.  -/

/-- The four signing modes of a signature-class field, plus the rejection
case. -/
inductive SignMode
  | identityVerified
  | walletCrypto
  | typed
  | drawn
  | invalid
deriving DecidableEq, Repr

/-- Modelled from the spec: the mode selection of section 4.4, evaluated in
the stated precedence over the shape of the payload — identity-verified
(credential reference plus verified name) first, then wallet-cryptographic
(wallet signature, wallet identity and document digest), then typed free
text, then drawn raster image, and otherwise no acceptable shape.  This
definition follows the words of the spec and is compared against
`signFieldHandler`, which is translated from the source. -/
def signModeOf (body : SignFieldRequest) : SignMode :=
  if truthy body.kycNftAddress && truthy body.verifiedName then
    SignMode.identityVerified
  else if truthy body.walletSignature && truthy body.walletAddress &&
      truthy body.documentHash then
    SignMode.walletCrypto
  else if truthy body.typedSignature then SignMode.typed
  else if truthy body.signatureImage then SignMode.drawn
  else SignMode.invalid

/-- A single signature row was appended by an operation. -/
def sigCreated (db dbAfter : DB) (s : Signature) : Prop :=
  dbAfter.signatures = db.signatures ++ [s]

/-!  Concrete fixtures used to evaluate the model on closed inputs.  -/

/-- Oracle fixture: the wallet 0xabc owns one approved credential. -/
def exOracle : String → List KYCVerifiedIdentity := fun w =>
  if w = "0xabc" then
    [{ nftAddress := "nft1", fullName := "Alice Smith", country := none,
       verificationDate := 1 }]
  else []

/-- Renderer fixture that succeeds. -/
def okRender : String → String → Except String String :=
  fun pdf _ => Except.ok (pdf ++ "+fields")

/-- Confirmation-page fixture that succeeds. -/
def okAppend : String → String → String → Except String String :=
  fun pdf _ _ => Except.ok (pdf ++ "+cert")

/-- Renderer fixture that always fails. -/
def failRender : String → String → Except String String :=
  fun _ _ => Except.error "render failure"

/-- Package fixture: a pending document with a pdf payload. -/
def exPkg : Pkg :=
  { id := "d1", title := "NDA", status := DocStatus.pending,
    ownerWalletAddress := "0xowner", paymentTxHash := some "0xtx",
    documentData := some "pdfbytes", documentHtml := none, completedAt := none }

/-- Recipient fixture: a signer who already completed signing. -/
def exAlice : Recipient :=
  { id := "r1", packageId := "d1", walletAddress := some "0xabc",
    email := some "a@x.com", name := "Alice", role := RecipientRole.signer,
    signingOrder := some 1, signingStatus := SigningStatus.signed,
    signedAt := some 3, ipAddress := none, userAgent := none, token := "tokA" }

/-- Recipient fixture: a signer still pending. -/
def exBob : Recipient :=
  { id := "r2", packageId := "d1", walletAddress := none,
    email := some "b@x.com", name := "Bob", role := RecipientRole.signer,
    signingOrder := some 2, signingStatus := SigningStatus.pending,
    signedAt := none, ipAddress := none, userAgent := none, token := "tokB" }

/-- Recipient fixture: a viewer (not a signer). -/
def exViewer : Recipient :=
  { id := "r3", packageId := "d1", walletAddress := none,
    email := some "v@x.com", name := "Vera", role := RecipientRole.viewer,
    signingOrder := none, signingStatus := SigningStatus.pending,
    signedAt := none, ipAddress := none, userAgent := none, token := "tokV" }

/-- Field fixture: a signature-class field assigned to Bob. -/
def exSigFieldBob : SignatureField :=
  { id := "f1", packageId := "d1", recipientId := "r2",
    fieldType := FieldType.signature, page := 1, positionX := 10,
    positionY := 10, width := 200, height := 60, value := none,
    fieldMeta := none, inserted := false }

/-- Field fixture: a plain text field assigned to Bob. -/
def exTextFieldBob : SignatureField :=
  { id := "f2", packageId := "d1", recipientId := "r2",
    fieldType := FieldType.text, page := 1, positionX := 10,
    positionY := 40, width := 200, height := 30, value := none,
    fieldMeta := none, inserted := false }

/-- Audit log fixture. -/
def exAudit : AuditLog :=
  { id := "a1", packageId := some "d1", eventType := "document_created",
    userWallet := some "0xowner", userEmail := none, ipAddress := none,
    userAgent := none, metadata := some "{}" }

/-- Store fixture for the signing routes: the pending package, three
recipients, two fields for Bob, no signatures yet, one audit row. -/
def exDbSign : DB :=
  { packages := [exPkg], recipients := [exAlice, exBob, exViewer],
    fields := [exSigFieldBob, exTextFieldBob], signatures := [],
    auditLogs := [exAudit], nextId := 100 }

/-- Store fixture where every signer of d1 has signed. -/
def exDbAllSigned : DB :=
  { packages := [exPkg], recipients := [exAlice, exViewer], fields := [],
    signatures := [], auditLogs := [], nextId := 100 }

/-- Store fixture where d1 has recipients but none with role signer. -/
def exDbNoSigners : DB :=
  { packages := [exPkg], recipients := [exViewer], fields := [],
    signatures := [], auditLogs := [], nextId := 100 }

/-- The cancelled variant of the package fixture. -/
def exPkgCancelled : Pkg := { exPkg with status := DocStatus.cancelled }

/-- Store fixture whose document is cancelled. -/
def exDbCancelled : DB := { exDbSign with packages := [exPkgCancelled] }

/-- Payment config fixture. -/
def exCfg : X402Config :=
  { network := "aptos-testnet", priceAtomic := "100000",
    usdcAssetAddress := "0xusdc", paymentRecipientAddress := "0xpayee",
    signaturePriceUsdc := "0.1", facilitatorUrl := "http://facilitator" }

/-- Header decoder fixture: every header decodes. -/
def exDecode : String → Option PaymentPayload := fun s => some { raw := s }

/-- Facilitator verify fixture: the facilitator is unreachable. -/
def exFacVerifyNetFail : PaymentPayload → PaymentRequirements → FacVerifyOutcome :=
  fun _ _ => FacVerifyOutcome.netFail

/-- Facilitator settle fixture: the facilitator is unreachable. -/
def exFacSettleNetFail : PaymentPayload → PaymentRequirements → FacSettleOutcome :=
  fun _ _ => FacSettleOutcome.netFail

/-- Lifecycle operation sequence fixture: create, distribute, complete. -/
def exOps : List LifecycleOp :=
  [LifecycleOp.createDoc "NDA" "0xowner" "0xtx" (some "pdfbytes") none
     [{ name := "Alice", walletAddress := some "0xabc" }],
   LifecycleOp.distribute "row0",
   LifecycleOp.checkComplete "row0" 9 okRender okAppend]

/-!  Shared helper lemmas.  -/

/-- A filter keeps the whole list exactly when the predicate holds on every
element. -/
lemma filter_len_eq_iff {α : Type} (p : α → Bool) (l : List α) :
    (l.filter p).length = l.length ↔ ∀ a ∈ l, p a = true := by
  induction l with
  | nil => simp
  | cons a t ih =>
    cases hpa : p a with
    | false =>
      have hfe : List.filter p (a :: t) = List.filter p t := by
        simp [List.filter_cons, hpa]
      rw [hfe, List.length_cons]
      have hle := List.length_filter_le p t
      constructor
      · intro hlen; omega
      · intro hall
        have h1 := hall a (List.mem_cons_self a t)
        rw [hpa] at h1; cases h1
    | true =>
      have hfe : (List.filter p (a :: t)).length = (List.filter p t).length + 1 := by
        simp [List.filter_cons, hpa]
      rw [hfe, List.length_cons]
      constructor
      · intro hlen b hb
        rcases List.mem_cons.mp hb with rfl | hb2
        · exact hpa
        · exact ih.mp (by omega) b hb2
      · intro hall
        have h2 := ih.mpr (fun b hb => hall b (List.mem_cons_of_mem a hb))
        omega

/-!  Claim C7: unsign after recipient completion.  -/

/-- C7 (confirmed): for every unsign call made with the access token of a
recipient whose signing status is signed, the handler replies with the
state-conflict error and leaves the store untouched (no Signature deleted,
no field value cleared), regardless of the target field. -/
theorem unsign_after_completion_conflicts
    (token fieldId : String) (db : DB) (recipient : Recipient)
    (hr : getRecipientByToken db token = some recipient)
    (hs : recipient.signingStatus = SigningStatus.signed) :
    unsignFieldHandler token fieldId db = (UnsignResult.cannotUnsignCompleted, db) := by
  simp [unsignFieldHandler, hr, hs]

/-- Witness for C7: Alice has completed signing; unsigning any field (even
a nonexistent one) through her token conflicts and changes nothing. -/
theorem unsign_after_completion_conflicts_witness :
    unsignFieldHandler "tokA" "f9" exDbSign = (UnsignResult.cannotUnsignCompleted, exDbSign) :=
  unsign_after_completion_conflicts "tokA" "f9" exDbSign exAlice (by decide) (by decide)

/-!  Claim C10: signing session on a terminal document.  -/

/-- C10 (confirmed): when the access token resolves to a recipient but the
owning document is cancelled or completed, the signing-session request
fails with the corresponding error, the store is unchanged, and no field or
signature payload is returned. -/
theorem session_blocked_on_terminal_status
    (token : String) (wa ip ua : Option String) (db : DB)
    (recipient : Recipient) (pkg : Pkg) (rs : List Recipient)
    (fs : List SignatureField)
    (hr : getRecipientByToken db token = some recipient)
    (hd : getPackageWithRecipients db recipient.packageId = some (pkg, rs, fs))
    (hstat : pkg.status = DocStatus.cancelled ∨ pkg.status = DocStatus.completed) :
    (getSigningSession token wa ip ua db = (SessionResult.docCancelled, db) ∨
     getSigningSession token wa ip ua db = (SessionResult.docCompleted, db)) ∧
    ∀ l, (getSigningSession token wa ip ua db).1 ≠ SessionResult.session l := by
  rcases hstat with h | h
  · refine ⟨Or.inl ?_, fun l => ?_⟩ <;> simp [getSigningSession, hr, hd, h]
  · refine ⟨Or.inr ?_, fun l => ?_⟩ <;> simp [getSigningSession, hr, hd, h]

/-- Witness for C10: Bob opens his signing link after the document was
cancelled. -/
theorem session_blocked_on_terminal_status_witness :
    (getSigningSession "tokB" none none none exDbCancelled =
       (SessionResult.docCancelled, exDbCancelled) ∨
     getSigningSession "tokB" none none none exDbCancelled =
       (SessionResult.docCompleted, exDbCancelled)) ∧
    ∀ l, (getSigningSession "tokB" none none none exDbCancelled).1 ≠
      SessionResult.session l :=
  session_blocked_on_terminal_status "tokB" none none none exDbCancelled exBob
    exPkgCancelled [exAlice, exBob, exViewer] [exSigFieldBob, exTextFieldBob]
    (by decide) (by decide) (Or.inl (by decide))

/-!  Claim C8: the payment gate fails closed.  -/

/-- C8 (confirmed): without a payment proof header the middleware replies
with the 402 challenge (carrying the encoded challenge descriptor and the
resource description) and performs no side effect (it never reaches the
creation handler); and whenever the facilitator verify or settle step
fails — a negative reply, an unparsable reply, or a network failure — the
middleware replies 402 with the reason, never a 5xx, and creation does not
proceed. -/
theorem payment_gate_fails_closed
    (cfg : X402Config) (decodeHeader : String → Option PaymentPayload)
    (facVerify : PaymentPayload → PaymentRequirements → FacVerifyOutcome)
    (facSettle : PaymentPayload → PaymentRequirements → FacSettleOutcome)
    (requestUrl : String) :
    (x402PaymentMiddleware cfg decodeHeader facVerify facSettle requestUrl none =
       MiddlewareResult.paymentRequired (buildPaymentRequired cfg requestUrl)) ∧
    (∀ header payload, decodeHeader header = some payload →
      (facVerify payload (buildPaymentRequirements cfg) = FacVerifyOutcome.netFail →
        x402PaymentMiddleware cfg decodeHeader facVerify facSettle requestUrl (some header) =
          MiddlewareResult.verifyFailed (some "Verification request failed")) ∧
      (∀ payer reason,
        facVerify payload (buildPaymentRequirements cfg) =
            FacVerifyOutcome.reply false payer reason →
        x402PaymentMiddleware cfg decodeHeader facVerify facSettle requestUrl (some header) =
          MiddlewareResult.verifyFailed reason) ∧
      (∀ t, facVerify payload (buildPaymentRequirements cfg) = FacVerifyOutcome.badJson t →
        x402PaymentMiddleware cfg decodeHeader facVerify facSettle requestUrl (some header) =
          MiddlewareResult.verifyFailed (some ("Invalid response: " ++ t))) ∧
      (∀ payer reason,
        facVerify payload (buildPaymentRequirements cfg) =
            FacVerifyOutcome.reply true payer reason →
        (facSettle payload (buildPaymentRequirements cfg) = FacSettleOutcome.netFail →
          x402PaymentMiddleware cfg decodeHeader facVerify facSettle requestUrl (some header) =
            MiddlewareResult.settleFailed (some "Settlement request failed")) ∧
        (∀ tx payer2 reason2,
          facSettle payload (buildPaymentRequirements cfg) =
              FacSettleOutcome.reply false tx payer2 reason2 →
          x402PaymentMiddleware cfg decodeHeader facVerify facSettle requestUrl (some header) =
            MiddlewareResult.settleFailed reason2))) := by
  refine ⟨rfl, fun header payload hdec => ⟨?_, ?_, ?_, ?_⟩⟩
  · intro hv
    simp [x402PaymentMiddleware, hdec, verifyPayment, hv]
  · intro payer reason hv
    simp [x402PaymentMiddleware, hdec, verifyPayment, hv]
  · intro t hv
    simp [x402PaymentMiddleware, hdec, verifyPayment, hv]
  · intro payer reason hv
    refine ⟨fun hs => ?_, fun tx payer2 reason2 hs => ?_⟩ <;>
      simp [x402PaymentMiddleware, hdec, verifyPayment, hv, settlePayment, hs]

/-- Witness for C8: no header yields the 402 challenge; an unreachable
facilitator yields a 402 with the failure reason, not a 500. -/
theorem payment_gate_fails_closed_witness :
    (x402PaymentMiddleware exCfg exDecode exFacVerifyNetFail exFacSettleNetFail
       "http://api/documents" none =
      MiddlewareResult.paymentRequired (buildPaymentRequired exCfg "http://api/documents")) ∧
    x402PaymentMiddleware exCfg exDecode exFacVerifyNetFail exFacSettleNetFail
       "http://api/documents" (some "hdr") =
      MiddlewareResult.verifyFailed (some "Verification request failed") :=
  ⟨(payment_gate_fails_closed exCfg exDecode exFacVerifyNetFail exFacSettleNetFail
      "http://api/documents").1,
   (((payment_gate_fails_closed exCfg exDecode exFacVerifyNetFail exFacSettleNetFail
      "http://api/documents").2 "hdr" { raw := "hdr" } rfl).1 rfl)⟩

/-!  Claim C4: the deletion cascade.  -/

/-- C4 counterexample: the claim asserts that audit events persist with a
nulled document reference after deletion; in the code `deleteDocument`
calls `deleteAuditLogsByPackage`, so after deleting d1 the audit table is
empty and no nulled audit event exists. -/
theorem delete_preserves_no_audit_cex :
    exDbSign.auditLogs ≠ [] ∧
    (deleteDocument exDbSign "d1").auditLogs = [] ∧
    ¬ ∃ a ∈ (deleteDocument exDbSign "d1").auditLogs, a.packageId = none :=
  ⟨by decide, by decide, by decide⟩

/-- C4 (corrected): delete removes children before parents in the order
signatures (joined via fields), fields, recipients, audit events, document;
afterwards no Field, Recipient, or Signature referencing the document
remains queryable — and the AuditEvents referencing it are deleted as well,
rather than persisting with a nulled document reference. -/
theorem delete_cascade (db : DB) (documentId : String) :
    (∀ p ∈ (deleteDocument db documentId).packages, p.id ≠ documentId) ∧
    (∀ f ∈ (deleteDocument db documentId).fields, f.packageId ≠ documentId) ∧
    (∀ r ∈ (deleteDocument db documentId).recipients, r.packageId ≠ documentId) ∧
    (∀ a ∈ (deleteDocument db documentId).auditLogs, a.packageId ≠ some documentId) ∧
    (∀ s ∈ (deleteDocument db documentId).signatures,
      ∀ f ∈ db.fields, f.packageId = documentId → s.fieldId ≠ f.id) ∧
    deleteDocument db documentId =
      deletePackage
        (deleteAuditLogsByPackage
          (deleteRecipientsByPackage
            (deleteFieldsByPackage
              (deleteSignaturesByPackage db documentId) documentId) documentId) documentId)
        documentId := by
  refine ⟨?_, ?_, ?_, ?_, ?_, rfl⟩
  · intro p hp
    simp [deleteDocument, deletePackage, deleteAuditLogsByPackage,
      deleteRecipientsByPackage, deleteFieldsByPackage,
      deleteSignaturesByPackage, List.mem_filter] at hp
    exact hp.2
  · intro f hf
    simp [deleteDocument, deletePackage, deleteAuditLogsByPackage,
      deleteRecipientsByPackage, deleteFieldsByPackage,
      deleteSignaturesByPackage, List.mem_filter] at hf
    exact hf.2
  · intro r hr
    simp [deleteDocument, deletePackage, deleteAuditLogsByPackage,
      deleteRecipientsByPackage, deleteFieldsByPackage,
      deleteSignaturesByPackage, List.mem_filter] at hr
    exact hr.2
  · intro a ha
    simp [deleteDocument, deletePackage, deleteAuditLogsByPackage,
      deleteRecipientsByPackage, deleteFieldsByPackage,
      deleteSignaturesByPackage, List.mem_filter] at ha
    exact ha.2
  · intro s hs f hf hpkg
    simp [deleteDocument, deletePackage, deleteAuditLogsByPackage,
      deleteRecipientsByPackage, deleteFieldsByPackage,
      deleteSignaturesByPackage, List.mem_filter] at hs
    exact hs.2 f hf hpkg

/-- Witness for C4: the cascade conclusion evaluated on the signing
fixture. -/
theorem delete_cascade_witness :
    (∀ p ∈ (deleteDocument exDbSign "d1").packages, p.id ≠ "d1") ∧
    (∀ f ∈ (deleteDocument exDbSign "d1").fields, f.packageId ≠ "d1") ∧
    (∀ r ∈ (deleteDocument exDbSign "d1").recipients, r.packageId ≠ "d1") ∧
    (∀ a ∈ (deleteDocument exDbSign "d1").auditLogs, a.packageId ≠ some "d1") ∧
    (∀ s ∈ (deleteDocument exDbSign "d1").signatures,
      ∀ f ∈ exDbSign.fields, f.packageId = "d1" → s.fieldId ≠ f.id) ∧
    deleteDocument exDbSign "d1" =
      deletePackage
        (deleteAuditLogsByPackage
          (deleteRecipientsByPackage
            (deleteFieldsByPackage
              (deleteSignaturesByPackage exDbSign "d1") "d1") "d1") "d1") "d1" :=
  delete_cascade exDbSign "d1"

/-!  Helper lemmas about the lifecycle operations.  -/

/-- Audit log creation leaves the package table unchanged. -/
lemma packages_createAuditLog (db : DB) (pid : Option String) (et : String)
    (d : AuditData) : ((createAuditLog db pid et d).2).packages = db.packages := rfl

/-- The recipient-creation loop of `createDocument` leaves the package
table unchanged. -/
lemma packages_foldl_createRecipStep (pid : String) (recips : List RecipientInput) :
    ∀ d : DB, ((recips.foldl (createRecipStep pid) d)).packages = d.packages := by
  induction recips with
  | nil => intro d; rfl
  | cons i t ih =>
    intro d
    rw [List.foldl_cons]
    exact (ih (createRecipStep pid d i)).trans rfl

/-- A package reached by a status update carries the new status, and its
completion stamp is the current time exactly when that status is
completed. -/
lemma updateStatus_mem (db : DB) (id : String) (st : DocStatus) (now : Nat) :
    ∀ p ∈ (updatePackageStatus db id st now).2.packages, p.id = id →
      p.status = st ∧
      p.completedAt = (if st = DocStatus.completed then some now else none) := by
  intro p hp hid
  simp only [updatePackageStatus] at hp
  rw [List.mem_map] at hp
  obtain ⟨q, hq, hfq⟩ := hp
  by_cases h : q.id = id
  · rw [if_pos h] at hfq
    rw [← hfq]
    exact ⟨rfl, rfl⟩
  · rw [if_neg h] at hfq
    subst hfq
    exact absurd hid h

/-- The completion-timestamp invariant survives every status update. -/
lemma completedInv_updatePackageStatus (db : DB) (id : String) (st : DocStatus)
    (now : Nat) (h : completedInv db) :
    completedInv (updatePackageStatus db id st now).2 := by
  intro p hp
  simp only [updatePackageStatus] at hp
  rw [List.mem_map] at hp
  obtain ⟨q, hq, hfq⟩ := hp
  by_cases hid : q.id = id
  · rw [if_pos hid] at hfq
    subst hfq
    cases st <;> simp
  · rw [if_neg hid] at hfq
    subst hfq
    exact h q hq

/-- The completion-timestamp invariant is a property of the package table
only. -/
lemma completedInv_of_packages_eq {db dbx : DB}
    (he : dbx.packages = db.packages) (h : completedInv db) : completedInv dbx := by
  intro p hp
  rw [he] at hp
  exact h p hp

/-- Replacing the pdf payload does not touch status or completion stamp. -/
lemma completedInv_updatePackageDocument (db : DB) (id data : String)
    (h : completedInv db) : completedInv (updatePackageDocument db id data).2 := by
  intro p hp
  simp only [updatePackageDocument] at hp
  rw [List.mem_map] at hp
  obtain ⟨q, hq, hfq⟩ := hp
  by_cases hid : q.id = id
  · rw [if_pos hid] at hfq
    subst hfq
    exact h q hq
  · rw [if_neg hid] at hfq
    subst hfq
    exact h q hq

/-- The finalization pipeline only rewrites the pdf payload, so the
completion-timestamp invariant survives it whether it succeeds or fails. -/
lemma completedInv_generateFinalDocument
    (render : String → String → Except String String)
    (append : String → String → String → Except String String)
    (docId : String) (db : DB) (h : completedInv db) :
    completedInv (generateFinalDocument render append docId db) := by
  unfold generateFinalDocument
  repeat' split
  all_goals first
  | exact completedInv_updatePackageDocument db docId _ h
  | exact h

/-- The package table after `createDocument` is the old table with one new
draft package (null completion stamp) appended. -/
lemma packages_createDocument (db : DB) (title payer tx : String)
    (dd dh : Option String) (recips : List RecipientInput) :
    ∃ pkg : Pkg, pkg.status = DocStatus.draft ∧ pkg.completedAt = none ∧
      (createDocument db title payer tx dd dh recips).2.packages =
        db.packages ++ [pkg] := by
  refine ⟨{ id := "row" ++ toString db.nextId, title := title,
            status := DocStatus.draft, ownerWalletAddress := payer,
            paymentTxHash := some tx, documentData := dd, documentHtml := dh,
            completedAt := none }, rfl, rfl, ?_⟩
  unfold createDocument
  simp only [packages_createAuditLog, packages_foldl_createRecipStep]
  rfl

/-!  Claim C1: finalization failure versus completion.  -/

/-- C1 counterexample: every signer of d1 has signed and the renderer
fails, yet `checkAndCompleteDocument` reports completion and flips the
status to completed — it does not remain pending for a retry. -/
theorem finalization_failure_still_completes_cex :
    failRender "pdfbytes" "d1" = Except.error "render failure" ∧
    checkAllRecipientsSigned exDbAllSigned "d1" = true ∧
    (checkAndCompleteDocument failRender okAppend "d1" 7 exDbAllSigned).1 = true ∧
    ((checkAndCompleteDocument failRender okAppend "d1" 7 exDbAllSigned).2.packages.map
      Pkg.status) = [DocStatus.completed] ∧
    ((checkAndCompleteDocument failRender okAppend "d1" 7 exDbAllSigned).2.packages.map
      Pkg.status) ≠ [DocStatus.pending] :=
  ⟨rfl, by decide, rfl, by decide, by decide⟩

/-- C1 (corrected): when every signer has signed, `checkAndCompleteDocument`
reports completion and marks the document completed with the completion
stamp set — regardless of whether the finalization pipeline succeeded,
because `generateFinalDocument` catches every rendering failure internally
and the caller cannot observe it.  The document therefore does not remain
pending when finalization fails. -/
theorem checkAndComplete_completes_even_if_finalization_fails
    (render : String → String → Except String String)
    (append : String → String → String → Except String String)
    (docId : String) (now : Nat) (db : DB)
    (hAll : checkAllRecipientsSigned db docId = true) :
    (checkAndCompleteDocument render append docId now db).1 = true ∧
    ∀ p ∈ (checkAndCompleteDocument render append docId now db).2.packages,
      p.id = docId → p.status = DocStatus.completed ∧ p.completedAt = some now := by
  constructor
  · simp [checkAndCompleteDocument, hAll]
  · intro p hp hid
    have hp2 : p ∈ (updatePackageStatus
        (generateFinalDocument render append docId db) docId
        DocStatus.completed now).2.packages := by
      simpa [checkAndCompleteDocument, hAll, packages_createAuditLog] using hp
    have := updateStatus_mem _ docId DocStatus.completed now p hp2 hid
    simpa using this

/-- Witness for C1: the fixture where Alice (the only signer) has signed,
with a failing renderer. -/
theorem checkAndComplete_completes_even_if_finalization_fails_witness :
    (checkAndCompleteDocument failRender okAppend "d1" 7 exDbAllSigned).1 = true ∧
    ∀ p ∈ (checkAndCompleteDocument failRender okAppend "d1" 7 exDbAllSigned).2.packages,
      p.id = "d1" → p.status = DocStatus.completed ∧ p.completedAt = some 7 :=
  checkAndComplete_completes_even_if_finalization_fails failRender okAppend "d1" 7
    exDbAllSigned (by decide)

/-!  Claim C2: the completion condition.  -/

/-- The helper query is true exactly when the signer list of the package is
nonempty and every signer has signed. -/
lemma checkAllRecipientsSigned_iff (db : DB) (pid : String) :
    checkAllRecipientsSigned db pid = true ↔
      (db.recipients.filter (fun r =>
        decide (r.packageId = pid) && decide (r.role = RecipientRole.signer))) ≠ [] ∧
      ∀ r ∈ db.recipients.filter (fun r =>
        decide (r.packageId = pid) && decide (r.role = RecipientRole.signer)),
        r.signingStatus = SigningStatus.signed := by
  simp only [checkAllRecipientsSigned, Bool.and_eq_true, decide_eq_true_eq]
  constructor
  · rintro ⟨hpos, heq⟩
    refine ⟨List.length_pos.mp hpos, fun r hr => ?_⟩
    have := (filter_len_eq_iff _ _).mp heq.symm r hr
    exact of_decide_eq_true this
  · rintro ⟨hne, hall⟩
    refine ⟨List.length_pos.mpr hne, ?_⟩
    exact ((filter_len_eq_iff _ _).mpr (fun r hr => decide_eq_true (hall r hr))).symm

/-- C2 counterexample: d1 is pending and has recipients but none with role
signer, so the claimed condition (every role-signer recipient has signed)
holds vacuously; yet `checkAndCompleteDocument` returns not-completed and
leaves the status pending, refuting the claimed equivalence. -/
theorem zero_signers_never_completes_cex :
    (exDbNoSigners.recipients.filter (fun r =>
      decide (r.packageId = "d1") && decide (r.role = RecipientRole.signer))) = [] ∧
    checkAndCompleteDocument okRender okAppend "d1" 7 exDbNoSigners =
      (false, exDbNoSigners) ∧
    (exDbNoSigners.packages.map Pkg.status) = [DocStatus.pending] :=
  ⟨by decide, by decide, by decide⟩

/-- C2 (corrected): `checkAndCompleteDocument` reports completion exactly
when the document has at least one role-signer recipient AND every
role-signer recipient has signed — a document with zero signers is never
auto-completed (the code requires a positive signer count, the vacuous case
of the claim fails).  When it does not complete, the store is returned
unchanged. -/
theorem checkAndComplete_iff_some_signer_and_all_signed
    (render : String → String → Except String String)
    (append : String → String → String → Except String String)
    (docId : String) (now : Nat) (db : DB) :
    ((checkAndCompleteDocument render append docId now db).1 = true ↔
      (db.recipients.filter (fun r =>
        decide (r.packageId = docId) && decide (r.role = RecipientRole.signer))) ≠ [] ∧
      ∀ r ∈ db.recipients.filter (fun r =>
        decide (r.packageId = docId) && decide (r.role = RecipientRole.signer)),
        r.signingStatus = SigningStatus.signed) ∧
    ((checkAndCompleteDocument render append docId now db).1 = false →
      (checkAndCompleteDocument render append docId now db).2 = db) := by
  constructor
  · rw [← checkAllRecipientsSigned_iff]
    cases hc : checkAllRecipientsSigned db docId <;>
      simp [checkAndCompleteDocument, hc]
  · intro hfalse
    cases hc : checkAllRecipientsSigned db docId with
    | false => simp [checkAndCompleteDocument, hc]
    | true => simp [checkAndCompleteDocument, hc] at hfalse

/-- Witness for C2: on the all-signed fixture the equivalence yields
completion; its hypotheses (nonempty signer list, all signed) are
discharged concretely. -/
theorem checkAndComplete_iff_some_signer_and_all_signed_witness :
    (checkAndCompleteDocument okRender okAppend "d1" 7 exDbAllSigned).1 = true :=
  (checkAndComplete_iff_some_signer_and_all_signed okRender okAppend "d1" 7
      exDbAllSigned).1.mpr ⟨by decide, by decide⟩

/-!  Claim C3: the completion-timestamp invariant.  -/

/-- One lifecycle operation preserves the completion-timestamp invariant. -/
lemma completedInv_applyOp (op : LifecycleOp) (db : DB) (h : completedInv db) :
    completedInv (applyOp op db) := by
  cases op with
  | createDoc title payer tx dd dh recips =>
    obtain ⟨pkg, hst, hca, hpe⟩ := packages_createDocument db title payer tx dd dh recips
    intro p hp
    rw [applyOp] at hp
    rw [hpe] at hp
    rcases List.mem_append.mp hp with h1 | h2
    · exact h p h1
    · have : p = pkg := by simpa using h2
      subst this
      rw [hst, hca]
      simp
  | distribute docId =>
    have h1 := completedInv_updatePackageStatus db docId DocStatus.pending 0 h
    show completedInv (distributeDocument db docId).2
    unfold distributeDocument
    cases hm : (updatePackageStatus db docId DocStatus.pending 0).1 with
    | none => exact h1
    | some p =>
      exact completedInv_of_packages_eq (packages_createAuditLog _ _ _ _) h1
  | cancel docId =>
    have h1 := completedInv_updatePackageStatus db docId DocStatus.cancelled 0 h
    show completedInv (cancelDocument db docId).2
    unfold cancelDocument
    cases hm : (updatePackageStatus db docId DocStatus.cancelled 0).1 with
    | none => exact h1
    | some p =>
      exact completedInv_of_packages_eq (packages_createAuditLog _ _ _ _) h1
  | checkComplete docId now render append =>
    show completedInv (checkAndCompleteDocument render append docId now db).2
    unfold checkAndCompleteDocument
    cases hc : checkAllRecipientsSigned db docId with
    | false => exact h
    | true =>
      have hgen := completedInv_generateFinalDocument render append docId db h
      have hupd := completedInv_updatePackageStatus _ docId DocStatus.completed now hgen
      exact completedInv_of_packages_eq (packages_createAuditLog _ _ _ _) hupd

/-- C3 (confirmed): for every starting store satisfying the invariant and
every sequence of lifecycle operations (create, distribute, cancel,
check-and-complete), the invariant holds that the completion stamp is
non-null exactly when the status is completed; creation appends a draft
package with a null stamp, and every status update stamps the completion
time exactly when the new status is completed and nulls it otherwise. -/
theorem completedAt_iff_completed (ops : List LifecycleOp) (db : DB)
    (h : completedInv db) :
    completedInv (applyOps ops db) ∧
    (∀ id title owner tx dd dh,
      (createPackage db id title owner tx dd dh).1.status = DocStatus.draft ∧
      (createPackage db id title owner tx dd dh).1.completedAt = none) ∧
    (∀ id st now, ∀ p ∈ (updatePackageStatus db id st now).2.packages,
      p.id = id →
        p.completedAt = (if st = DocStatus.completed then some now else none)) := by
  refine ⟨?_, fun id title owner tx dd dh => ⟨rfl, rfl⟩,
    fun id st now p hp hid => (updateStatus_mem db id st now p hp hid).2⟩
  induction ops generalizing db with
  | nil => exact h
  | cons op t ih =>
    rw [applyOps, List.foldl_cons]
    exact ih (applyOp op db) (completedInv_applyOp op db h)

/-- Witness for C3: the invariant holds after running the fixture
operation sequence from the empty store. -/
theorem completedAt_iff_completed_witness :
    completedInv (applyOps exOps emptyDB) :=
  (completedAt_iff_completed exOps emptyDB (by decide)).1

/-!  Helper lemmas about field updates.  -/

/-- Updating one field rewrites exactly the row found by id. -/
lemma find?_map_update (l : List SignatureField) (fid : String) (v : String) :
    (l.map (fun f =>
        if f.id = fid then { f with value := some v, inserted := true } else f)).find?
      (fun f => decide (f.id = fid)) =
    (l.find? (fun f => decide (f.id = fid))).map
      (fun f => { f with value := some v, inserted := true }) := by
  induction l with
  | nil => rfl
  | cons f t ih =>
    by_cases h : f.id = fid
    · simp [List.find?_cons, h]
    · simp [List.find?_cons, h, ih]

/-- Reading a field back after `updateFieldValue` returns the stored value
with the inserted flag set. -/
lemma getFieldById_after_update (db : DB) (fid v : String) :
    getFieldById (updateFieldValue db fid v).2 fid =
      (getFieldById db fid).map (fun f => { f with value := some v, inserted := true }) := by
  simp only [getFieldById, updateFieldValue]
  exact find?_map_update db.fields fid v

/-!  Claim C9: non-signature field values.  -/

/-- C9 counterexample: signing a text field with the defined empty-string
value succeeds (so the accept side of the claim holds), but the Signature
row recorded for the audit trail carries a NULL typed-text payload instead
of the value, because the INSERT parameter is the value put through
`x || null`. -/
theorem empty_value_null_typed_payload_cex :
    (signFieldHandler exOracle "tokB" "f2" { value := some "" } none none exDbSign).1 =
      SignResult.signedOk ∧
    ((signFieldHandler exOracle "tokB" "f2" { value := some "" } none none
        exDbSign).2.signatures.map (fun s => s.typedSignature)) = [none] ∧
    ¬ ∃ s ∈ (signFieldHandler exOracle "tokB" "f2" { value := some "" } none none
        exDbSign).2.signatures, s.typedSignature = some "" :=
  ⟨rfl, by decide, by decide⟩

/-- C9 (corrected): for a non-signature field the call fails with a
validation error exactly when the payload value is undefined; any defined
value — the empty string included — is accepted and recorded verbatim as
the field value with the inserted flag set, and a Signature record is
created for the audit trail whose typed-text payload is the value when it
is a non-empty string but NULL when the value is the empty string. -/
theorem nonsignature_value_rule (oracle : String → List KYCVerifiedIdentity)
    (token fieldId : String) (body : SignFieldRequest) (ip ua : Option String)
    (db : DB) (recipient : Recipient) (field : SignatureField)
    (hr : getRecipientByToken db token = some recipient)
    (hf : getFieldById db fieldId = some field)
    (hown : field.recipientId = recipient.id)
    (hnosig : getSignatureByField db fieldId = none)
    (hns : isSignatureField field.fieldType = false) :
    (body.value = none →
      signFieldHandler oracle token fieldId body ip ua db = (SignResult.valueRequired, db)) ∧
    (∀ v, body.value = some v →
      (signFieldHandler oracle token fieldId body ip ua db).1 = SignResult.signedOk ∧
      getFieldById (signFieldHandler oracle token fieldId body ip ua db).2 fieldId =
        some { field with value := some v, inserted := true } ∧
      ∃ s, sigCreated db (signFieldHandler oracle token fieldId body ip ua db).2 s ∧
        s.fieldId = fieldId ∧ s.recipientId = recipient.id ∧
        s.typedSignature = normEmpty (some v) ∧ s.signatureImage = none ∧
        s.kycVerifiedName = none ∧ s.kycNftAddress = none ∧
        s.walletSignature = none ∧ s.walletAddress = none ∧ s.documentHash = none) := by
  constructor
  · intro hv
    simp [signFieldHandler, hr, hf, hown, hnosig, hns, hv]
  · intro v hv
    have hred : signFieldHandler oracle token fieldId body ip ua db =
        (SignResult.signedOk,
         (createAuditLog
           ((createSignature ((updateFieldValue db fieldId v).2) fieldId recipient.id
              { typedSignature := some v }).2)
           (some recipient.packageId) "field_signed"
           { userWallet := recipient.walletAddress, userEmail := recipient.email,
             ipAddress := ip, userAgent := ua,
             metadata := some ("fieldId=" ++ fieldId) }).2) := by
      simp [signFieldHandler, hr, hf, hown, hnosig, hns, hv]
    rw [hred]
    refine ⟨rfl, ?_, ?_⟩
    · show getFieldById ((updateFieldValue db fieldId v).2) fieldId = _
      rw [getFieldById_after_update, hf]
      rfl
    · refine ⟨{ id := "row" ++ toString db.nextId, fieldId := fieldId,
                recipientId := recipient.id, signatureImage := none,
                typedSignature := normEmpty (some v), kycVerifiedName := none,
                kycNftAddress := none, walletSignature := none,
                walletAddress := none, documentHash := none },
        ?_, rfl, rfl, rfl, rfl, rfl, rfl, rfl, rfl, rfl⟩
      show sigCreated db _ _
      simp [sigCreated, createSignature, createAuditLog, updateFieldValue,
        DB.fresh, normEmpty]

/-- Witness for C9: Bob fills his text field with a non-empty value; the
field stores the value verbatim and the audit Signature carries it. -/
theorem nonsignature_value_rule_witness :
    (signFieldHandler exOracle "tokB" "f2" { value := some "hello" } none none
        exDbSign).1 = SignResult.signedOk ∧
    getFieldById (signFieldHandler exOracle "tokB" "f2" { value := some "hello" }
        none none exDbSign).2 "f2" =
      some { exTextFieldBob with value := some "hello", inserted := true } ∧
    ∃ s, sigCreated exDbSign (signFieldHandler exOracle "tokB" "f2"
        { value := some "hello" } none none exDbSign).2 s ∧
      s.fieldId = "f2" ∧ s.recipientId = exBob.id ∧
      s.typedSignature = normEmpty (some "hello") ∧ s.signatureImage = none ∧
      s.kycVerifiedName = none ∧ s.kycNftAddress = none ∧
      s.walletSignature = none ∧ s.walletAddress = none ∧ s.documentHash = none :=
  (nonsignature_value_rule exOracle "tokB" "f2" { value := some "hello" } none none
    exDbSign exBob exTextFieldBob (by decide) (by decide) (by decide) (by decide)
    (by decide)).2 "hello" rfl

/-!  Claim C6: identity-verified signing with a mismatched credential.  -/

/-- C6 (confirmed): when an identity-verified sign attempt claims a
verified name that matches no approved credential of the signer wallet for
the given credential reference (in particular when the referenced
credential does not belong to that wallet), the verification comes back
negative with a stated reason, the handler replies with the verification
error carrying that reason, and the store is unchanged: no Signature row
is created and the field value and inserted flag stay as they were. -/
theorem kyc_mismatch_rejected (oracle : String → List KYCVerifiedIdentity)
    (token fieldId : String) (body : SignFieldRequest) (ip ua : Option String)
    (db : DB) (recipient : Recipient) (field : SignatureField)
    (hr : getRecipientByToken db token = some recipient)
    (hf : getFieldById db fieldId = some field)
    (hown : field.recipientId = recipient.id)
    (hnosig : getSignatureByField db fieldId = none)
    (hsf : isSignatureField field.fieldType = true)
    (hk : truthy body.kycNftAddress = true)
    (hv : truthy body.verifiedName = true)
    (hnomatch : ∀ w ∈ oracle (effectiveWallet recipient body),
      ¬(w.nftAddress = body.kycNftAddress.getD "" ∧
        w.fullName.toLower = (body.verifiedName.getD "").toLower)) :
    (verifyKYCName oracle (effectiveWallet recipient body) (body.verifiedName.getD "")
        body.kycNftAddress).verified = false ∧
    (verifyKYCName oracle (effectiveWallet recipient body) (body.verifiedName.getD "")
        body.kycNftAddress).error.isSome = true ∧
    signFieldHandler oracle token fieldId body ip ua db =
      (SignResult.kycVerificationFailed
        (verifyKYCName oracle (effectiveWallet recipient body)
          (body.verifiedName.getD "") body.kycNftAddress).error, db) := by
  have hvf : (verifyKYCName oracle (effectiveWallet recipient body)
      (body.verifiedName.getD "") body.kycNftAddress).verified = false ∧
      (verifyKYCName oracle (effectiveWallet recipient body)
        (body.verifiedName.getD "") body.kycNftAddress).error.isSome = true := by
    unfold verifyKYCName
    by_cases he : (oracle (effectiveWallet recipient body)).isEmpty
    · simp [he]
    · have hfind : (oracle (effectiveWallet recipient body)).find? (fun w =>
          decide (w.nftAddress = body.kycNftAddress.getD "") &&
          decide (w.fullName.toLower = (body.verifiedName.getD "").toLower)) = none := by
        rw [List.find?_eq_none]
        intro x hx
        simp only [Bool.and_eq_true, decide_eq_true_eq]
        exact fun hc => hnomatch x hx hc
      simp [he, hk, hfind]
  refine ⟨hvf.1, hvf.2, ?_⟩
  simp [signFieldHandler, hr, hf, hown, hnosig, hsf, hk, hv, hvf.1]

/-- Witness for C6: Bob claims the name Alice Smith under the credential
nft2, which the oracle does not attribute to the wallet 0xabc (it holds
nft1); the sign attempt fails with the oracle reason and the store is
untouched. -/
theorem kyc_mismatch_rejected_witness :
    (verifyKYCName exOracle (effectiveWallet exBob
        { kycNftAddress := some "nft2", verifiedName := some "Alice Smith",
          walletAddress := some "0xabc" })
        "Alice Smith" (some "nft2")).verified = false ∧
    (verifyKYCName exOracle (effectiveWallet exBob
        { kycNftAddress := some "nft2", verifiedName := some "Alice Smith",
          walletAddress := some "0xabc" })
        "Alice Smith" (some "nft2")).error.isSome = true ∧
    signFieldHandler exOracle "tokB" "f1"
        { kycNftAddress := some "nft2", verifiedName := some "Alice Smith",
          walletAddress := some "0xabc" } none none exDbSign =
      (SignResult.kycVerificationFailed
        (verifyKYCName exOracle (effectiveWallet exBob
          { kycNftAddress := some "nft2", verifiedName := some "Alice Smith",
            walletAddress := some "0xabc" })
          "Alice Smith" (some "nft2")).error, exDbSign) :=
  kyc_mismatch_rejected exOracle "tokB" "f1"
    { kycNftAddress := some "nft2", verifiedName := some "Alice Smith",
      walletAddress := some "0xabc" } none none exDbSign exBob exSigFieldBob
    (by decide) (by decide) (by decide) (by decide) (by decide) (by decide)
    (by decide) (by decide)

/-!  Branch lemmas for the signing-mode dispatch of the sign route.  Each
fixes the presence booleans of one branch of the nested payload-shape
tests and describes the handler outcome.  -/

/-- With no acceptable payload shape, the sign route replies with the
validation error naming the alternatives and changes nothing. -/
lemma signField_invalid_branch (oracle : String → List KYCVerifiedIdentity)
    (token fieldId : String) (body : SignFieldRequest) (ip ua : Option String)
    (db : DB) (recipient : Recipient) (field : SignatureField)
    (hr : getRecipientByToken db token = some recipient)
    (hf : getFieldById db fieldId = some field)
    (hown : field.recipientId = recipient.id)
    (hnosig : getSignatureByField db fieldId = none)
    (hsf : isSignatureField field.fieldType = true)
    (hA : (truthy body.kycNftAddress && truthy body.verifiedName) = false)
    (hB : (truthy body.walletSignature && truthy body.walletAddress &&
      truthy body.documentHash) = false)
    (hC : truthy body.typedSignature = false)
    (hD : truthy body.signatureImage = false) :
    signFieldHandler oracle token fieldId body ip ua db =
      (SignResult.signaturePayloadInvalid
        "Signature field requires walletSignature, signatureImage, typedSignature, or kycNftAddress+verifiedName",
       db) := by
  simp [signFieldHandler, hr, hf, hown, hnosig, hsf, hA, hB, hC, hD]

/-- The wallet-cryptographic branch: the signature row carries the wallet
proof and no other payload. -/
lemma signField_wallet_branch (oracle : String → List KYCVerifiedIdentity)
    (token fieldId : String) (body : SignFieldRequest) (ip ua : Option String)
    (db : DB) (recipient : Recipient) (field : SignatureField)
    (hr : getRecipientByToken db token = some recipient)
    (hf : getFieldById db fieldId = some field)
    (hown : field.recipientId = recipient.id)
    (hnosig : getSignatureByField db fieldId = none)
    (hsf : isSignatureField field.fieldType = true)
    (hA : (truthy body.kycNftAddress && truthy body.verifiedName) = false)
    (hB : (truthy body.walletSignature && truthy body.walletAddress &&
      truthy body.documentHash) = true) :
    (signFieldHandler oracle token fieldId body ip ua db).1 = SignResult.signedOk ∧
    ∃ s, sigCreated db (signFieldHandler oracle token fieldId body ip ua db).2 s ∧
      s.fieldId = fieldId ∧ s.recipientId = recipient.id ∧
      s.walletSignature = normEmpty body.walletSignature ∧
      s.walletAddress = normEmpty body.walletAddress ∧
      s.documentHash = normEmpty body.documentHash ∧
      s.kycVerifiedName = none ∧ s.kycNftAddress = none ∧
      s.typedSignature = none ∧ s.signatureImage = none := by
  constructor
  · simp [signFieldHandler, hr, hf, hown, hnosig, hsf, hA, hB]
  · refine ⟨{ id := "row" ++ toString db.nextId, fieldId := fieldId,
              recipientId := recipient.id, signatureImage := none,
              typedSignature := none, kycVerifiedName := none,
              kycNftAddress := none,
              walletSignature := normEmpty body.walletSignature,
              walletAddress := normEmpty body.walletAddress,
              documentHash := normEmpty body.documentHash },
      ?_, rfl, rfl, rfl, rfl, rfl, rfl, rfl, rfl, rfl⟩
    show sigCreated db _ _
    simp [sigCreated, signFieldHandler, hr, hf, hown, hnosig, hsf, hA, hB,
      createSignature, createAuditLog, updateFieldValue, DB.fresh, normEmpty]

/-- The typed branch: the signature row carries only the typed text. -/
lemma signField_typed_branch (oracle : String → List KYCVerifiedIdentity)
    (token fieldId : String) (body : SignFieldRequest) (ip ua : Option String)
    (db : DB) (recipient : Recipient) (field : SignatureField)
    (hr : getRecipientByToken db token = some recipient)
    (hf : getFieldById db fieldId = some field)
    (hown : field.recipientId = recipient.id)
    (hnosig : getSignatureByField db fieldId = none)
    (hsf : isSignatureField field.fieldType = true)
    (hA : (truthy body.kycNftAddress && truthy body.verifiedName) = false)
    (hB : (truthy body.walletSignature && truthy body.walletAddress &&
      truthy body.documentHash) = false)
    (hC : truthy body.typedSignature = true) :
    (signFieldHandler oracle token fieldId body ip ua db).1 = SignResult.signedOk ∧
    ∃ s, sigCreated db (signFieldHandler oracle token fieldId body ip ua db).2 s ∧
      s.fieldId = fieldId ∧ s.recipientId = recipient.id ∧
      s.typedSignature = normEmpty body.typedSignature ∧
      s.signatureImage = none ∧ s.kycVerifiedName = none ∧ s.kycNftAddress = none ∧
      s.walletSignature = none ∧ s.walletAddress = none ∧ s.documentHash = none := by
  constructor
  · simp [signFieldHandler, hr, hf, hown, hnosig, hsf, hA, hB, hC]
  · refine ⟨{ id := "row" ++ toString db.nextId, fieldId := fieldId,
              recipientId := recipient.id, signatureImage := none,
              typedSignature := normEmpty body.typedSignature,
              kycVerifiedName := none, kycNftAddress := none,
              walletSignature := none, walletAddress := none,
              documentHash := none },
      ?_, rfl, rfl, rfl, rfl, rfl, rfl, rfl, rfl, rfl⟩
    show sigCreated db _ _
    simp [sigCreated, signFieldHandler, hr, hf, hown, hnosig, hsf, hA, hB, hC,
      createSignature, createAuditLog, updateFieldValue, DB.fresh, normEmpty]

/-- The drawn branch: the signature row carries only the raster image. -/
lemma signField_drawn_branch (oracle : String → List KYCVerifiedIdentity)
    (token fieldId : String) (body : SignFieldRequest) (ip ua : Option String)
    (db : DB) (recipient : Recipient) (field : SignatureField)
    (hr : getRecipientByToken db token = some recipient)
    (hf : getFieldById db fieldId = some field)
    (hown : field.recipientId = recipient.id)
    (hnosig : getSignatureByField db fieldId = none)
    (hsf : isSignatureField field.fieldType = true)
    (hA : (truthy body.kycNftAddress && truthy body.verifiedName) = false)
    (hB : (truthy body.walletSignature && truthy body.walletAddress &&
      truthy body.documentHash) = false)
    (hC : truthy body.typedSignature = false)
    (hD : truthy body.signatureImage = true) :
    (signFieldHandler oracle token fieldId body ip ua db).1 = SignResult.signedOk ∧
    ∃ s, sigCreated db (signFieldHandler oracle token fieldId body ip ua db).2 s ∧
      s.fieldId = fieldId ∧ s.recipientId = recipient.id ∧
      s.signatureImage = normEmpty body.signatureImage ∧
      s.typedSignature = none ∧ s.kycVerifiedName = none ∧ s.kycNftAddress = none ∧
      s.walletSignature = none ∧ s.walletAddress = none ∧ s.documentHash = none := by
  constructor
  · simp [signFieldHandler, hr, hf, hown, hnosig, hsf, hA, hB, hC, hD]
  · refine ⟨{ id := "row" ++ toString db.nextId, fieldId := fieldId,
              recipientId := recipient.id,
              signatureImage := normEmpty body.signatureImage,
              typedSignature := none, kycVerifiedName := none,
              kycNftAddress := none, walletSignature := none,
              walletAddress := none, documentHash := none },
      ?_, rfl, rfl, rfl, rfl, rfl, rfl, rfl, rfl, rfl⟩
    show sigCreated db _ _
    simp [sigCreated, signFieldHandler, hr, hf, hown, hnosig, hsf, hA, hB, hC, hD,
      createSignature, createAuditLog, updateFieldValue, DB.fresh, normEmpty]

/-- The identity-verified branch: either the oracle check fails and the
handler replies with the verification error leaving the store unchanged,
or it passes and the signature row leads with the verified-name claim. -/
lemma signField_identity_branch (oracle : String → List KYCVerifiedIdentity)
    (token fieldId : String) (body : SignFieldRequest) (ip ua : Option String)
    (db : DB) (recipient : Recipient) (field : SignatureField)
    (hr : getRecipientByToken db token = some recipient)
    (hf : getFieldById db fieldId = some field)
    (hown : field.recipientId = recipient.id)
    (hnosig : getSignatureByField db fieldId = none)
    (hsf : isSignatureField field.fieldType = true)
    (hA : (truthy body.kycNftAddress && truthy body.verifiedName) = true) :
    (signFieldHandler oracle token fieldId body ip ua db =
       (SignResult.kycVerificationFailed
         (verifyKYCName oracle (effectiveWallet recipient body)
           (body.verifiedName.getD "") body.kycNftAddress).error, db) ∧
     (verifyKYCName oracle (effectiveWallet recipient body)
       (body.verifiedName.getD "") body.kycNftAddress).verified = false) ∨
    ((signFieldHandler oracle token fieldId body ip ua db).1 = SignResult.signedOk ∧
     (verifyKYCName oracle (effectiveWallet recipient body)
       (body.verifiedName.getD "") body.kycNftAddress).verified = true ∧
     ∃ s, sigCreated db (signFieldHandler oracle token fieldId body ip ua db).2 s ∧
       s.fieldId = fieldId ∧ s.recipientId = recipient.id ∧
       s.kycVerifiedName = normEmpty body.verifiedName ∧
       s.kycNftAddress = normEmpty body.kycNftAddress ∧
       s.typedSignature = none ∧ s.signatureImage = none ∧
       s.walletSignature = normEmpty (jsUndef body.walletSignature) ∧
       s.walletAddress = normEmpty (jsUndef body.walletAddress) ∧
       s.documentHash = normEmpty (jsUndef body.documentHash)) := by
  cases hv : (verifyKYCName oracle (effectiveWallet recipient body)
      (body.verifiedName.getD "") body.kycNftAddress).verified with
  | false =>
    left
    exact ⟨by simp [signFieldHandler, hr, hf, hown, hnosig, hsf, hA, hv], rfl⟩
  | true =>
    right
    refine ⟨by simp [signFieldHandler, hr, hf, hown, hnosig, hsf, hA, hv], rfl, ?_⟩
    refine ⟨{ id := "row" ++ toString db.nextId, fieldId := fieldId,
              recipientId := recipient.id, signatureImage := none,
              typedSignature := none,
              kycVerifiedName := normEmpty body.verifiedName,
              kycNftAddress := normEmpty body.kycNftAddress,
              walletSignature := normEmpty (jsUndef body.walletSignature),
              walletAddress := normEmpty (jsUndef body.walletAddress),
              documentHash := normEmpty (jsUndef body.documentHash) },
      ?_, rfl, rfl, rfl, rfl, rfl, rfl, rfl, rfl, rfl⟩
    show sigCreated db _ _
    simp [sigCreated, signFieldHandler, hr, hf, hown, hnosig, hsf, hA, hv,
      createSignature, createAuditLog, updateFieldValue, DB.fresh, normEmpty]

/-!  Claim C5: payload-shape mode dispatch.  -/

/-- C5 (confirmed): on a signature-class field the handler selects the
signing mode exactly as the spec-side precedence function `signModeOf`
prescribes — identity-verified first, then wallet-cryptographic, then
typed, then drawn — creating one Signature row whose payload matches the
selected mode; and when no shape matches, it fails with the validation
error naming the acceptable alternatives and creates no Signature. -/
theorem sign_mode_dispatch (oracle : String → List KYCVerifiedIdentity)
    (token fieldId : String) (body : SignFieldRequest) (ip ua : Option String)
    (db : DB) (recipient : Recipient) (field : SignatureField)
    (hr : getRecipientByToken db token = some recipient)
    (hf : getFieldById db fieldId = some field)
    (hown : field.recipientId = recipient.id)
    (hnosig : getSignatureByField db fieldId = none)
    (hsf : isSignatureField field.fieldType = true) :
    (signModeOf body = SignMode.invalid →
      signFieldHandler oracle token fieldId body ip ua db =
        (SignResult.signaturePayloadInvalid
          "Signature field requires walletSignature, signatureImage, typedSignature, or kycNftAddress+verifiedName",
         db)) ∧
    (signModeOf body = SignMode.walletCrypto →
      (signFieldHandler oracle token fieldId body ip ua db).1 = SignResult.signedOk ∧
      ∃ s, sigCreated db (signFieldHandler oracle token fieldId body ip ua db).2 s ∧
        s.fieldId = fieldId ∧ s.recipientId = recipient.id ∧
        s.walletSignature = normEmpty body.walletSignature ∧
        s.walletAddress = normEmpty body.walletAddress ∧
        s.documentHash = normEmpty body.documentHash ∧
        s.kycVerifiedName = none ∧ s.kycNftAddress = none ∧
        s.typedSignature = none ∧ s.signatureImage = none) ∧
    (signModeOf body = SignMode.typed →
      (signFieldHandler oracle token fieldId body ip ua db).1 = SignResult.signedOk ∧
      ∃ s, sigCreated db (signFieldHandler oracle token fieldId body ip ua db).2 s ∧
        s.fieldId = fieldId ∧ s.recipientId = recipient.id ∧
        s.typedSignature = normEmpty body.typedSignature ∧
        s.signatureImage = none ∧ s.kycVerifiedName = none ∧ s.kycNftAddress = none ∧
        s.walletSignature = none ∧ s.walletAddress = none ∧ s.documentHash = none) ∧
    (signModeOf body = SignMode.drawn →
      (signFieldHandler oracle token fieldId body ip ua db).1 = SignResult.signedOk ∧
      ∃ s, sigCreated db (signFieldHandler oracle token fieldId body ip ua db).2 s ∧
        s.fieldId = fieldId ∧ s.recipientId = recipient.id ∧
        s.signatureImage = normEmpty body.signatureImage ∧
        s.typedSignature = none ∧ s.kycVerifiedName = none ∧ s.kycNftAddress = none ∧
        s.walletSignature = none ∧ s.walletAddress = none ∧ s.documentHash = none) ∧
    (signModeOf body = SignMode.identityVerified →
      (signFieldHandler oracle token fieldId body ip ua db =
         (SignResult.kycVerificationFailed
           (verifyKYCName oracle (effectiveWallet recipient body)
             (body.verifiedName.getD "") body.kycNftAddress).error, db) ∧
       (verifyKYCName oracle (effectiveWallet recipient body)
         (body.verifiedName.getD "") body.kycNftAddress).verified = false) ∨
      ((signFieldHandler oracle token fieldId body ip ua db).1 = SignResult.signedOk ∧
       (verifyKYCName oracle (effectiveWallet recipient body)
         (body.verifiedName.getD "") body.kycNftAddress).verified = true ∧
       ∃ s, sigCreated db (signFieldHandler oracle token fieldId body ip ua db).2 s ∧
         s.fieldId = fieldId ∧ s.recipientId = recipient.id ∧
         s.kycVerifiedName = normEmpty body.verifiedName ∧
         s.kycNftAddress = normEmpty body.kycNftAddress ∧
         s.typedSignature = none ∧ s.signatureImage = none ∧
         s.walletSignature = normEmpty (jsUndef body.walletSignature) ∧
         s.walletAddress = normEmpty (jsUndef body.walletAddress) ∧
         s.documentHash = normEmpty (jsUndef body.documentHash))) := by
  refine ⟨?_, ?_, ?_, ?_, ?_⟩
  · intro hmode
    cases hA : (truthy body.kycNftAddress && truthy body.verifiedName) <;>
    cases hB : (truthy body.walletSignature && truthy body.walletAddress &&
      truthy body.documentHash) <;>
    cases hC : truthy body.typedSignature <;>
    cases hD : truthy body.signatureImage <;>
    simp only [signModeOf, hA, hB, hC, hD] at hmode <;>
    first
    | exact signField_invalid_branch oracle token fieldId body ip ua db recipient
        field hr hf hown hnosig hsf hA hB hC hD
    | simp at hmode
  · intro hmode
    cases hA : (truthy body.kycNftAddress && truthy body.verifiedName) <;>
    cases hB : (truthy body.walletSignature && truthy body.walletAddress &&
      truthy body.documentHash) <;>
    cases hC : truthy body.typedSignature <;>
    cases hD : truthy body.signatureImage <;>
    simp only [signModeOf, hA, hB, hC, hD] at hmode <;>
    first
    | exact signField_wallet_branch oracle token fieldId body ip ua db recipient
        field hr hf hown hnosig hsf hA hB
    | simp at hmode
  · intro hmode
    cases hA : (truthy body.kycNftAddress && truthy body.verifiedName) <;>
    cases hB : (truthy body.walletSignature && truthy body.walletAddress &&
      truthy body.documentHash) <;>
    cases hC : truthy body.typedSignature <;>
    cases hD : truthy body.signatureImage <;>
    simp only [signModeOf, hA, hB, hC, hD] at hmode <;>
    first
    | exact signField_typed_branch oracle token fieldId body ip ua db recipient
        field hr hf hown hnosig hsf hA hB hC
    | simp at hmode
  · intro hmode
    cases hA : (truthy body.kycNftAddress && truthy body.verifiedName) <;>
    cases hB : (truthy body.walletSignature && truthy body.walletAddress &&
      truthy body.documentHash) <;>
    cases hC : truthy body.typedSignature <;>
    cases hD : truthy body.signatureImage <;>
    simp only [signModeOf, hA, hB, hC, hD] at hmode <;>
    first
    | exact signField_drawn_branch oracle token fieldId body ip ua db recipient
        field hr hf hown hnosig hsf hA hB hC hD
    | simp at hmode
  · intro hmode
    cases hA : (truthy body.kycNftAddress && truthy body.verifiedName) <;>
    cases hB : (truthy body.walletSignature && truthy body.walletAddress &&
      truthy body.documentHash) <;>
    cases hC : truthy body.typedSignature <;>
    cases hD : truthy body.signatureImage <;>
    simp only [signModeOf, hA, hB, hC, hD] at hmode <;>
    first
    | exact signField_identity_branch oracle token fieldId body ip ua db recipient
        field hr hf hown hnosig hsf hA
    | simp at hmode

/-- Witness for C5: Bob signs his signature field in typed mode; the
payload shape selects the typed branch and the created row carries the
typed text only. -/
theorem sign_mode_dispatch_witness :
    (signFieldHandler exOracle "tokB" "f1" { typedSignature := some "Bob B" }
        none none exDbSign).1 = SignResult.signedOk ∧
    ∃ s, sigCreated exDbSign (signFieldHandler exOracle "tokB" "f1"
        { typedSignature := some "Bob B" } none none exDbSign).2 s ∧
      s.fieldId = "f1" ∧ s.recipientId = exBob.id ∧
      s.typedSignature = normEmpty (some "Bob B") ∧
      s.signatureImage = none ∧ s.kycVerifiedName = none ∧ s.kycNftAddress = none ∧
      s.walletSignature = none ∧ s.walletAddress = none ∧ s.documentHash = none :=
  (sign_mode_dispatch exOracle "tokB" "f1" { typedSignature := some "Bob B" }
      none none exDbSign exBob exSigFieldBob (by decide) (by decide) (by decide)
      (by decide) (by decide)).2.2.1 (by decide)

end SoulboundSig
